import Mathlib

/-!
# Verification of the excel-mcp-server dispatcher

Shallow embedding of `src/app.py`: a Flask MCP server exposing five
spreadsheet tools (`sum_range`, `avg_range`, `get_cell`, `set_cell`,
`to_csv`) behind a single `run_tool` dispatch endpoint.

The repository's own code (`run_tool`, `parse_range_string`,
`load_workbook_from_b64`) is translated directly.  The external libraries
it calls (`openpyxl`, `base64`, `csv`, CPython's `float` constructor) are
modelled by executable Lean functions following their documented
behaviour:

* Python machine floats are abstracted as exact rationals plus the
  distinguished values infinity and NaN (`PFloat`);
* a data-URL string argument is modelled by its decode outcome
  (`FileContent`), since only that outcome is observable through the
  dispatcher; the xlsx save/load pair is value-faithful per spec section
  4.1 (decode after encode yields a document with the same sheets and
  cell values);
* openpyxl range lookup is modelled for the standard reference shapes
  (`A1`-style cells, bounded rectangles `A1:B10`, column spans `A:B`,
  row spans `1:3`, row/column keys), with `$`-absolute markers and
  lower-case letters accepted as openpyxl does; single-column and
  single-row spans (`A:A`, `1:1`) are flattened to a flat cell tuple
  as `Worksheet.__getitem__` does, so the sum/avg loops fail on them
  with `TypeError`;
* the xlsx bytes `workbook.save` emits are additionally modelled at
  the wire level (`XlsxBytes`): the zip container stamps its entries
  with the save time, so the serialized form depends on the clock as
  well as on the workbook content.
-/

namespace App

/-- Python float values: finite floats abstracted as exact rationals,
plus the special values `inf`/`-inf` and `nan`. -/
inductive PFloat where
  | finite (q : ℚ)
  | infty (neg : Bool)
  | nan
deriving DecidableEq, Repr

/-- Values a spreadsheet cell (or a JSON result) can hold: `None`,
booleans, integers, floats and text. -/
inductive PyVal where
  | none
  | bool (b : Bool)
  | int (n : ℤ)
  | float (x : PFloat)
  | str (s : String)
deriving DecidableEq, Repr

/-- A Python number, as accumulated by `total` in the sum/avg loops:
`total` starts as the int `0` and is promoted to float on the first
float added. -/
inductive PyNum where
  | int (n : ℤ)
  | float (x : PFloat)
deriving DecidableEq, Repr

/-- Addition of Python floats: NaN is absorbing, opposite infinities
give NaN. -/
def pfAdd : PFloat → PFloat → PFloat
  | .nan, _ => .nan
  | _, .nan => .nan
  | .infty s, .infty t => if s = t then .infty s else .nan
  | .infty s, .finite _ => .infty s
  | .finite _, .infty t => .infty t
  | .finite a, .finite b => .finite (a + b)

def PyNum.toPF : PyNum → PFloat
  | .int n => .finite (n : ℚ)
  | .float x => x

/-- Python `+` on numbers: int+int stays int, otherwise float. -/
def numAdd : PyNum → PyNum → PyNum
  | .int a, .int b => .int (a + b)
  | a, b => .float (pfAdd a.toPF b.toPF)

/-- The exact rational value of a Python number, when it is finite. -/
def PyNum.toRat? : PyNum → Option ℚ
  | .int n => some (n : ℚ)
  | .float (.finite q) => some q
  | _ => Option.none

/-- Mirrors `isinstance(cell.value, (int, float))` from the sum/avg
branches of `run_tool`: Python `bool` is a subclass of `int`, so boolean
cells pass this test. -/
def isNumeric : PyVal → Bool
  | .bool _ => true
  | .int _ => true
  | .float _ => true
  | _ => false

/-- The Python number a numeric cell contributes to `total`
(`True` counts as 1, `False` as 0); junk on non-numeric values, which
the loops never add. -/
def valToNum : PyVal → PyNum
  | .bool b => .int (if b then 1 else 0)
  | .int n => .int n
  | .float x => .float x
  | _ => .int 0

/-- The exact rational value of a numeric cell, when finite. -/
def numRat? : PyVal → Option ℚ
  | .bool b => some (if b then 1 else 0)
  | .int n => some (n : ℚ)
  | .float (.finite q) => some q
  | _ => Option.none

/-! ## Sheets and workbooks -/

/-- A sheet's cell contents: the rows `iter_rows` yields, in row order,
each row listing cell values left to right. -/
abbrev Grid := List (List PyVal)

/-- Cell lookup at 1-based (row, column); cells outside the stored grid
read as `None`, mirroring openpyxl's `EmptyCell`. -/
def cellAt (g : Grid) (r c : Nat) : PyVal :=
  (g.getD (r - 1) []).getD (c - 1) PyVal.none

/-- A workbook: named sheets in file order; the first sheet is the
active one. -/
structure Workbook where
  sheets : List (String × Grid)
deriving DecidableEq, Repr

/-- `workbook[sheet_name]` (raises `KeyError` when absent, modelled by
`none`). -/
def Workbook.findSheet (wb : Workbook) (name : String) : Option Grid :=
  (wb.sheets.find? (fun p => p.1 == name)).map (·.2)

/-! ## Reference strings -/

/-- Split a character list at the first occurrence of `sep`;
`none` when `sep` does not occur. -/
def splitFirst (sep : Char) : List Char → Option (List Char × List Char)
  | [] => Option.none
  | c :: rest =>
    if c = sep then some ([], rest)
    else (splitFirst sep rest).map (fun p => (c :: p.1, p.2))

/-- `parse_range_string` from `src/app.py`: split at the FIRST `!`;
a reference without `!` raises `ValueError` (modelled by `none`). -/
def parse_range_string (s : String) : Option (String × String) :=
  (splitFirst '!' s.data).map (fun p => (String.mk p.1, String.mk p.2))

/-! ## openpyxl coordinates (`Sheet["A1"]`, `Sheet["A1:B10"]`, ...) -/

/-- 1-based value of a column letter; openpyxl accepts both cases. -/
def letterVal (c : Char) : Option Nat :=
  if 'A'.toNat ≤ c.toNat ∧ c.toNat ≤ 'Z'.toNat then some (c.toNat - 'A'.toNat + 1)
  else if 'a'.toNat ≤ c.toNat ∧ c.toNat ≤ 'z'.toNat then some (c.toNat - 'a'.toNat + 1)
  else Option.none

def colValAux : List Char → Nat → Option Nat
  | [], acc => some acc
  | c :: rest, acc =>
    match letterVal c with
    | some v => colValAux rest (acc * 26 + v)
    | Option.none => Option.none

def digitsVal (l : List Char) : Nat :=
  l.foldl (fun a c => a * 10 + (c.toNat - '0'.toNat)) 0

/-- Strip one leading `$`, as openpyxl's coordinate pattern allows. -/
def dropDollar : List Char → List Char
  | '$' :: rest => rest
  | l => l

/-- openpyxl cell-coordinate parsing: optional `$`, one to three
letters, optional `$`, a positive row number.  Returns (row, column). -/
def parseCoord (l : List Char) : Option (Nat × Nat) :=
  let l1 := dropDollar l
  let letters := l1.takeWhile (fun c => (letterVal c).isSome)
  let rest := dropDollar (l1.dropWhile (fun c => (letterVal c).isSome))
  if letters.length = 0 ∨ 3 < letters.length then Option.none
  else
    match colValAux letters 0 with
    | Option.none => Option.none
    | some c =>
      if rest.length = 0 ∨ ¬ rest.all Char.isDigit then Option.none
      else
        let r := digitsVal rest
        if r = 0 then Option.none else some (r, c)

/-- Column value of a letters-only key such as `B` or `$AA`. -/
def lettersOnlyVal (l : List Char) : Option Nat :=
  let l1 := dropDollar l
  if l1.length = 0 ∨ 3 < l1.length then Option.none
  else if l1.all (fun c => (letterVal c).isSome) then colValAux l1 0
  else Option.none

/-- Row value of a digits-only key such as `5` or `$12`. -/
def digitsOnlyVal (l : List Char) : Option Nat :=
  let l1 := dropDollar l
  if l1.length ≠ 0 ∧ l1.all Char.isDigit ∧ digitsVal l1 ≠ 0 then some (digitsVal l1)
  else Option.none

/-- What `Worksheet.__getitem__` makes of an address key:
a single cell, a flat tuple of cells, a bounded rectangle (always a
tuple of row tuples, even for `A1:A1`), a multi-column span, a
multi-row span, or a `ValueError`.  `flat` covers row and column keys
(`5`, `B`) and also single-column / single-row spans (`A:A`, `1:1`),
which `__getitem__` flattens to the one column or row tuple
(`if len(cols) == 1: cols = cols[0]`); the sum/avg nested loops then
iterate single `Cell` objects and raise `TypeError`. -/
inductive AddrClass where
  | single (r c : Nat)
  | flat
  | rect (r1 c1 r2 c2 : Nat)
  | colspan (c1 c2 : Nat)
  | rowspan (r1 r2 : Nat)
  | bad
deriving DecidableEq, Repr

def classifyAddr (l : List Char) : AddrClass :=
  match splitFirst ':' l with
  | Option.none =>
    match digitsOnlyVal l, lettersOnlyVal l with
    | some _, _ => .flat
    | _, some _ => .flat
    | _, _ =>
      match parseCoord l with
      | some (r, c) => .single r c
      | Option.none => .bad
  | some (a, b) =>
    match parseCoord a, parseCoord b with
    | some (r1, c1), some (r2, c2) => .rect r1 c1 r2 c2
    | _, _ =>
      match lettersOnlyVal a, lettersOnlyVal b with
      | some c1, some c2 => if c1 = c2 then .flat else .colspan c1 c2
      | _, _ =>
        match digitsOnlyVal a, digitsOnlyVal b with
        | some r1, some r2 => if r1 = r2 then .flat else .rowspan r1 r2
        | _, _ => .bad

/-- The inclusive 1-based index range `[lo, hi]` (empty when `hi < lo`),
as `range(lo, hi + 1)` in openpyxl's iteration. -/
def rowIdx (lo hi : Nat) : List Nat := List.range' lo (hi + 1 - lo)

/-- Largest column index of the stored data, at least 1 (openpyxl's
`max_col` for a dimension-based iteration). -/
def gridMaxCol (g : Grid) : Nat := max 1 (g.foldl (fun a row => max a row.length) 0)

/-- Largest row index of the stored data, at least 1. -/
def gridMaxRow (g : Grid) : Nat := max 1 g.length

/-- The rows of cell values `sheet[key]` yields for a key that produces
a tuple of tuples: rectangles iterate rows outer / columns inner;
column spans iterate columns outer (`iter_cols`); row spans iterate
rows over the data width.  `classifyAddr` only produces `colspan` /
`rowspan` for spans of at least two columns / rows, since
`__getitem__` flattens single spans to a flat tuple (`flat`); a
reversed span (`B:A`, `3:2`) yields the empty tuple, which the loops
sum to 0. -/
def resolveCells (g : Grid) : AddrClass → Option (List (List PyVal))
  | .rect r1 c1 r2 c2 =>
    some ((rowIdx r1 r2).map (fun r => (rowIdx c1 c2).map (fun c => cellAt g r c)))
  | .colspan c1 c2 =>
    some ((rowIdx c1 c2).map (fun c => (rowIdx 1 (gridMaxRow g)).map (fun r => cellAt g r c)))
  | .rowspan r1 r2 =>
    some ((rowIdx r1 r2).map (fun r => (rowIdx 1 (gridMaxCol g)).map (fun c => cellAt g r c)))
  | _ => Option.none

/-! ## Writing a cell (`sheet[address] = value` plus save/reload) -/

/-- Pad a row on the right with `None` up to `c` cells. -/
def padRow (row : List PyVal) (c : Nat) : List PyVal :=
  row ++ List.replicate (c - row.length) PyVal.none

/-- Write `v` at 1-based column `c`, creating the cell if needed. -/
def setRow (row : List PyVal) (c : Nat) (v : PyVal) : List PyVal :=
  (padRow row c).set (c - 1) v

/-- Pad a grid with empty rows up to `r` rows. -/
def padGrid (g : Grid) (r : Nat) : Grid :=
  g ++ List.replicate (r - g.length) []

/-- Write `v` at 1-based (row, column), extending the grid as openpyxl
extends the worksheet dimensions. -/
def setGrid (g : Grid) (r c : Nat) (v : PyVal) : Grid :=
  (padGrid g r).set (r - 1) (setRow ((padGrid g r).getD (r - 1) []) c v)

/-- Replace the contents of the named sheet (the worksheet object is
mutated in place, the workbook keeps its sheets). -/
def Workbook.setSheet (wb : Workbook) (name : String) (g : Grid) : Workbook :=
  ⟨wb.sheets.map (fun p => if p.1 == name then (p.1, g) else p)⟩

/-! ## CPython `float(str)` -/

/-- Whitespace `float` strips from both ends. -/
def isWs (c : Char) : Bool :=
  c = ' ' || c = '\t' || c = '\n' || c = '\r' || c = '\x0c' || c = '\x0b'

/-- CPython allows `_` in numeric literals only directly between two
digits. -/
def underscoresOk (l : List Char) : Bool :=
  (List.range l.length).all (fun i =>
    l.getD i ' ' != '_' ||
      (decide (i ≠ 0) && (l.getD (i - 1) ' ').isDigit && (l.getD (i + 1) ' ').isDigit))

/-- Split at the first `e`/`E` (exponent marker). -/
def splitExp : List Char → (List Char × Option (List Char))
  | [] => ([], Option.none)
  | c :: rest =>
    if c = 'e' ∨ c = 'E' then ([], some rest)
    else
      let p := splitExp rest
      (c :: p.1, p.2)

/-- Parse an unsigned decimal literal `digits[.digits][e[sign]digits]`
(underscores already removed).  The digit string `ip.fp` with exponent
`e` denotes `digits(ip ++ fp) * 10 ^ (e - |fp|)`, built with `mkRat` so
the value is a plain normalized rational. -/
def parseDecimalCore (l : List Char) : Option ℚ :=
  let me := splitExp l
  let expVal : Option ℤ :=
    match me.2 with
    | Option.none => some 0
    | some e =>
      let se : Bool × List Char :=
        match e with
        | '+' :: r => (false, r)
        | '-' :: r => (true, r)
        | _ => (false, e)
      if se.2 ≠ [] ∧ se.2.all Char.isDigit then
        some (if se.1 then -(digitsVal se.2 : ℤ) else (digitsVal se.2 : ℤ))
      else Option.none
  let mantParts : Option (Nat × Nat) :=
    match splitFirst '.' me.1 with
    | Option.none =>
      if me.1 ≠ [] ∧ me.1.all Char.isDigit then some (digitsVal me.1, 0) else Option.none
    | some p =>
      if (p.1 ≠ [] ∨ p.2 ≠ []) ∧ p.1.all Char.isDigit ∧ p.2.all Char.isDigit then
        some (digitsVal (p.1 ++ p.2), p.2.length)
      else Option.none
  match mantParts, expVal with
  | some mp, some e =>
    let t : ℤ := e - (mp.2 : ℤ)
    some (if 0 ≤ t then mkRat ((mp.1 : ℤ) * ((10 ^ t.toNat : ℕ) : ℤ)) 1
          else mkRat (mp.1 : ℤ) (10 ^ (-t).toNat))
  | _, _ => Option.none

/-- CPython `float(s)` for strings: strip whitespace, optional sign,
then `inf`/`infinity`/`nan` (case-insensitive) or a decimal literal;
`none` models the `ValueError` branch of `set_cell`. -/
def pyFloatOfString (s : String) : Option PFloat :=
  let t := ((s.data.dropWhile isWs).reverse.dropWhile isWs).reverse
  let sb : Bool × List Char :=
    match t with
    | '+' :: rest => (false, rest)
    | '-' :: rest => (true, rest)
    | _ => (false, t)
  let low := sb.2.map Char.toLower
  if low = "inf".data ∨ low = "infinity".data then some (.infty sb.1)
  else if low = "nan".data then some PFloat.nan
  else if underscoresOk sb.2 then
    match parseDecimalCore (sb.2.filter (fun c => c != '_')) with
    | some q => some (.finite (if sb.1 then -q else q))
    | Option.none => Option.none
  else Option.none

/-! ## Python `str` and the `csv` writer -/

/-- Decimal digit characters of `n` (most significant first). -/
def natChars (n : Nat) : List Char := (toString n).data

/-- Insert a decimal point `k` digits from the right, zero-padding the
integer part (`str(0.5)` is `0.5`). -/
def insertPoint (ds : List Char) (k : Nat) : List Char :=
  let ds := if ds.length ≤ k then List.replicate (k + 1 - ds.length) '0' ++ ds else ds
  ds.take (ds.length - k) ++ '.' :: ds.drop (ds.length - k)

/-- `str` of a finite float, modelled as the exact decimal expansion
when the denominator divides a power of ten (always the case for a
binary float's exact rational value is not needed here; cell values
decoded from files are decimal). -/
def renderRat (q : ℚ) : String :=
  if q.den = 1 then toString q.num ++ ".0"
  else
    match (List.range 64).find? (fun k => (q.den : ℤ) ∣ (10 : ℤ) ^ k) with
    | some k =>
      let m : ℤ := q.num * (10 : ℤ) ^ k / (q.den : ℤ)
      (if q.num < 0 then "-" else "") ++ String.mk (insertPoint (natChars m.natAbs) k)
    | Option.none => toString q.num ++ "/" ++ toString q.den

/-- The text `csv.writer` emits for a cell value: `None` becomes an
empty field, other values go through `str`. -/
def pyStr : PyVal → String
  | .none => ""
  | .bool true => "True"
  | .bool false => "False"
  | .int n => toString n
  | .float (.finite q) => renderRat q
  | .float (.infty false) => "inf"
  | .float (.infty true) => "-inf"
  | .float .nan => "nan"
  | .str s => s

/-- Double every quote character (the `doublequote` escaping of the
default csv dialect). -/
def escQ : List Char → List Char
  | [] => []
  | c :: rest => if c = '"' then '"' :: '"' :: escQ rest else c :: escQ rest

/-- `QUOTE_MINIMAL`: a field is quoted iff it contains the delimiter,
the quote character, or a line-terminator character. -/
def isCsvSpecial (c : Char) : Bool :=
  c = ',' || c = '"' || c = '\r' || c = '\n'

def encField (f : List Char) : List Char :=
  if f.any isCsvSpecial then '"' :: (escQ f ++ ['"']) else f

/-- One CSV record: comma-separated encoded fields plus `\r\n`. -/
def encRecord (fs : List (List Char)) : List Char :=
  List.intercalate [','] (fs.map encField) ++ ['\r', '\n']

/-- The full output of `csv.writer` over the given rows of field
texts. -/
def csvContent (rows : List (List (List Char))) : List Char :=
  (rows.map encRecord).flatten

/-! ## A CSV reader (to state the record/field shape of the output) -/

inductive ScanMode where
  | base
  | quoted
  | postQuote
  | postCR
deriving DecidableEq, Repr

/-- Close the record under construction: `f` is the current field
(reversed), `r` the earlier fields (most recent first). -/
def finishRec (f : List Char) (r : List (List Char)) : List (List Char) :=
  (f.reverse :: r).reverse

/-- RFC-4180-style CSV scanner for the writer's dialect (`,` delimiter,
`"` quoting with doubling, `\r\n` record ends; mode `postCR` skips the
`\n` of a record end).  Accumulators: current field (reversed), current
record's earlier fields (most recent first), finished records (most
recent first). -/
def scan : List Char → ScanMode → List Char → List (List Char) → List (List (List Char)) →
    List (List (List Char))
  | [], _, f, r, a => if f.isEmpty && r.isEmpty then a else finishRec f r :: a
  | c :: rest, m, f, r, a =>
    match m with
    | .quoted =>
      if c = '"' then scan rest .postQuote f r a
      else scan rest .quoted (c :: f) r a
    | .postCR =>
      if c = '\n' then scan rest .base f r a
      else if c = ',' then scan rest .base [] (f.reverse :: r) a
      else if c = '\r' then scan rest .postCR [] [] (finishRec f r :: a)
      else if c = '"' then
        if f.isEmpty then scan rest .quoted f r a else scan rest .base ('"' :: f) r a
      else scan rest .base (c :: f) r a
    | .base =>
      if c = ',' then scan rest .base [] (f.reverse :: r) a
      else if c = '\r' then scan rest .postCR [] [] (finishRec f r :: a)
      else if c = '"' then
        if f.isEmpty then scan rest .quoted f r a else scan rest .base ('"' :: f) r a
      else scan rest .base (c :: f) r a
    | .postQuote =>
      if c = '"' then scan rest .quoted ('"' :: f) r a
      else if c = ',' then scan rest .base [] (f.reverse :: r) a
      else if c = '\r' then scan rest .postCR [] [] (finishRec f r :: a)
      else scan rest .base (c :: f) r a

/-- Parse a CSV text into its records of fields. -/
def csvParse (l : List Char) : List (List (List Char)) :=
  (scan l .base [] [] []).reverse

/-! ## Request parameters and errors -/

/-- Decode outcome of a file-parameter string: a data URL whose payload
is a loadable workbook, a string whose comma-split or base64 decode
fails, or bytes openpyxl rejects. -/
inductive FileContent where
  | valid (wb : Workbook)
  | badB64
  | notXlsx
deriving DecidableEq, Repr

/-- A JSON parameter value.  Data-URL strings are carried as `pfile`
(with their decode outcome); `pstr` covers the remaining strings. -/
inductive ParamVal where
  | pstr (s : String)
  | pnum (q : ℚ)
  | pbool (b : Bool)
  | pnull
  | pfile (f : FileContent)
deriving DecidableEq, Repr

abbrev Params := List (String × ParamVal)

/-- `params[k]` (`none` models the `KeyError`). -/
def getParam (ps : Params) (k : String) : Option ParamVal :=
  (ps.find? (fun p => p.1 == k)).map (·.2)

/-- The body of a `POST /mcp/run` request: `data.get('tool_id')` and
`data.get('parameters', {})`. -/
structure Request where
  tool_id : Option String
  parameters : Params
deriving DecidableEq, Repr

/-- Failure kinds raised inside `run_tool`, tagged by the Python
exception class that carries them; the `except` clauses at the end of
`run_tool` decide the HTTP status from that class. -/
inductive RunErr where
  | missingParam (k : String)   -- KeyError on params[...]
  | typeMismatch (m : String)   -- TypeError
  | unknownSheet (n : String)   -- KeyError from workbook[sheet_name]
  | invalidEncoding             -- ValueError from the base64 layer
  | unparsable                  -- IOError from openpyxl load
  | invalidReference            -- ValueError from parse_range_string
  | invalidAddress              -- ValueError from coordinate parsing
  | attrError (m : String)      -- AttributeError
  | toolNotFound (tid : String) -- unmatched tool id
deriving DecidableEq, Repr

/-- HTTP status `run_tool` assigns: `except (KeyError, TypeError)`
gives 400, the unknown-tool branch 404, the catch-all 500. -/
def RunErr.status : RunErr → Nat
  | .missingParam _ => 400
  | .typeMismatch _ => 400
  | .unknownSheet _ => 400
  | .toolNotFound _ => 404
  | _ => 500

/-- The `error` string of the JSON error body. -/
def RunErr.message : RunErr → String
  | .missingParam k => "Missing or invalid parameter: '" ++ k ++ "'"
  | .typeMismatch m => "Missing or invalid parameter: " ++ m
  | .unknownSheet n => "Missing or invalid parameter: 'Worksheet " ++ n ++ " does not exist.'"
  | .invalidEncoding => "Invalid base64 file format: not enough values to unpack"
  | .unparsable => "Failed to parse Excel file: openpyxl does not support this format"
  | .invalidReference => "Invalid range format. Expected 'SheetName!A1:B10'."
  | .invalidAddress => "is not a valid coordinate or range"
  | .attrError m => "'" ++ m ++ "'"
  | .toolNotFound tid => "Tool with id '" ++ tid ++ "' not found."

/-- `load_workbook_from_b64`: strings are modelled by their decode
outcome; non-string values have no `.split`, raising `AttributeError`
caught by the 500 handler. -/
def load_workbook_from_b64 : ParamVal → Except RunErr Workbook
  | .pfile (.valid wb) => .ok wb
  | .pfile .badB64 => .error .invalidEncoding
  | .pfile .notXlsx => .error .unparsable
  | .pstr _ => .error .invalidEncoding
  | _ => .error (.attrError "split")

/-- `parse_range_string(params[...])` on an arbitrary parameter value:
non-iterable values raise `TypeError` at `'!' not in range_str` (400);
strings (and data-URL strings, which contain no `!`) without a bang
raise the `ValueError` of `parse_range_string` (500). -/
def parseRefParam : ParamVal → Except RunErr (String × String)
  | .pstr s =>
    match parse_range_string s with
    | some p => .ok p
    | Option.none => .error .invalidReference
  | .pfile _ => .error .invalidReference
  | _ => .error (.typeMismatch "argument of type is not iterable")

/-! ## Tool results -/

inductive FileOut where
  | xlsxFile (wb : Workbook)
  | csvFile (content : String)
deriving DecidableEq, Repr

inductive ResultVal where
  | value (v : PyVal)
  | fileOut (f : FileOut)
deriving DecidableEq, Repr

def numToVal : PyNum → PyVal
  | .int n => .int n
  | .float x => .float x

/-- One iteration of the sum/avg loop body over a cell value. -/
def cellStep (acc : PyNum × Nat) (v : PyVal) : PyNum × Nat :=
  if isNumeric v then (numAdd acc.1 (valToNum v), acc.2 + 1) else acc

/-- The nested `for row in sheet[cell_range]: for cell in row:` loops,
accumulating `total` (from int 0) and `count` (from 0). -/
def foldCells (cells : List (List PyVal)) : PyNum × Nat :=
  cells.foldl (fun acc row => row.foldl cellStep acc) (.int 0, 0)

/-- Python float division of the accumulated total by a positive
count. -/
def pfDivNat (x : PFloat) (k : Nat) : PFloat :=
  match x with
  | .finite q => .finite (q / (k : ℚ))
  | x => x

/-! ## The five tool bodies -/

/-- `sum_range` after the file was decoded: resolve the reference, then
iterate.  A single-cell or row/column key yields a non-iterable `Cell`
in one of the two loops (`TypeError`, 400); an unparsable address
raises `ValueError` (500). -/
def sumCore (wb : Workbook) (rv : ParamVal) : Except RunErr ResultVal :=
  match parseRefParam rv with
  | .error e => .error e
  | .ok sa =>
  match wb.findSheet sa.1 with
  | Option.none => .error (.unknownSheet sa.1)
  | some g =>
    match classifyAddr sa.2.data with
    | .single _ _ => .error (.typeMismatch "'Cell' object is not iterable")
    | .flat => .error (.typeMismatch "'Cell' object is not iterable")
    | .bad => .error .invalidAddress
    | k =>
      match resolveCells g k with
      | some cells => .ok (.value (numToVal (foldCells cells).1))
      | Option.none => .error .invalidAddress

/-- `avg_range` after the file was decoded: same loops, then
`total / count if count > 0 else 0`. -/
def avgCore (wb : Workbook) (rv : ParamVal) : Except RunErr ResultVal :=
  match parseRefParam rv with
  | .error e => .error e
  | .ok sa =>
  match wb.findSheet sa.1 with
  | Option.none => .error (.unknownSheet sa.1)
  | some g =>
    match classifyAddr sa.2.data with
    | .single _ _ => .error (.typeMismatch "'Cell' object is not iterable")
    | .flat => .error (.typeMismatch "'Cell' object is not iterable")
    | .bad => .error .invalidAddress
    | k =>
      match resolveCells g k with
      | some cells =>
        let tc := foldCells cells
        if tc.2 = 0 then .ok (.value (.int 0))
        else .ok (.value (.float (pfDivNat tc.1.toPF tc.2)))
      | Option.none => .error .invalidAddress

/-- `get_cell` after the file was decoded: `sheet[cell_address].value`.
Range, row and column keys return tuples, which have no `.value`
(`AttributeError`, 500). -/
def getCore (wb : Workbook) (cv : ParamVal) : Except RunErr ResultVal :=
  match parseRefParam cv with
  | .error e => .error e
  | .ok sa =>
  match wb.findSheet sa.1 with
  | Option.none => .error (.unknownSheet sa.1)
  | some g =>
    match classifyAddr sa.2.data with
    | .single r c => .ok (.value (cellAt g r c))
    | .bad => .error .invalidAddress
    | _ => .error (.attrError "value")

/-- The textual form of a file parameter, as seen when one is passed
where a plain string is expected; only its lack of float syntax and of
`!` matters to the dispatcher, so the payload text is left abstract. -/
def fileString : FileContent → String
  | .valid _ => "data:application/vnd.ms-excel;base64,"
  | .badB64 => "data:"
  | .notXlsx => "data:application/octet-stream;base64,"

/-- `float(new_value)` with fallback to the original value: strings
that parse become floats, other strings stay verbatim; numbers and
booleans convert; `None` raises `TypeError` (uncaught by the inner
`except ValueError`, so 400). -/
def coerceValue : ParamVal → Except RunErr PyVal
  | .pstr s =>
    .ok (match pyFloatOfString s with
      | some x => .float x
      | Option.none => .str s)
  | .pnum q => .ok (.float (.finite q))
  | .pbool b => .ok (.float (.finite (if b then 1 else 0)))
  | .pnull => .error (.typeMismatch "float() argument must be a string or a real number")
  | .pfile f =>
    .ok (match pyFloatOfString (fileString f) with
      | some x => .float x
      | Option.none => .str (fileString f))

/-- `set_cell` after the file was decoded, following the source order:
parse the reference, read `params['value']`, look the sheet up, coerce
the value, assign, save and re-encode. -/
def setCore (wb : Workbook) (cv : ParamVal) (vv : Option ParamVal) :
    Except RunErr ResultVal :=
  match parseRefParam cv with
  | .error e => .error e
  | .ok sa =>
  match vv with
  | Option.none => .error (.missingParam "value")
  | some vv =>
    match wb.findSheet sa.1 with
    | Option.none => .error (.unknownSheet sa.1)
    | some g =>
      match coerceValue vv with
      | .error e => .error e
      | .ok v =>
        match classifyAddr sa.2.data with
        | .single r c => .ok (.fileOut (.xlsxFile (wb.setSheet sa.1 (setGrid g r c v))))
        | .bad => .error .invalidAddress
        | _ => .error (.attrError "value")

/-- `to_csv`: write every row of the active (first) sheet through
`csv.writer` and re-encode the text. -/
def toCsvCore (wb : Workbook) : Except RunErr ResultVal :=
  match wb.sheets.head? with
  | Option.none => .error (.attrError "iter_rows")
  | some sg =>
    .ok (.fileOut (.csvFile (String.mk
      (csvContent (sg.2.map (fun row => row.map (fun v => (pyStr v).data)))))))

/-! ## The dispatcher -/

/-- The `if tool_id == ...` chain of `run_tool`.  The second component
records whether `load_workbook_from_b64` was invoked for this request
(used to settle the "before any file decoding" claims). -/
def dispatch (tid : String) (ps : Params) : Except RunErr ResultVal × Bool :=
  if tid = "sum_range" then
    match getParam ps "file" with
    | Option.none => (.error (.missingParam "file"), false)
    | some fv =>
      match load_workbook_from_b64 fv with
      | .error e => (.error e, true)
      | .ok wb =>
        match getParam ps "range" with
        | Option.none => (.error (.missingParam "range"), true)
        | some rv => (sumCore wb rv, true)
  else if tid = "avg_range" then
    match getParam ps "file" with
    | Option.none => (.error (.missingParam "file"), false)
    | some fv =>
      match load_workbook_from_b64 fv with
      | .error e => (.error e, true)
      | .ok wb =>
        match getParam ps "range" with
        | Option.none => (.error (.missingParam "range"), true)
        | some rv => (avgCore wb rv, true)
  else if tid = "get_cell" then
    match getParam ps "file" with
    | Option.none => (.error (.missingParam "file"), false)
    | some fv =>
      match load_workbook_from_b64 fv with
      | .error e => (.error e, true)
      | .ok wb =>
        match getParam ps "cell" with
        | Option.none => (.error (.missingParam "cell"), true)
        | some cv => (getCore wb cv, true)
  else if tid = "set_cell" then
    match getParam ps "file" with
    | Option.none => (.error (.missingParam "file"), false)
    | some fv =>
      match load_workbook_from_b64 fv with
      | .error e => (.error e, true)
      | .ok wb =>
        match getParam ps "cell" with
        | Option.none => (.error (.missingParam "cell"), true)
        | some cv => (setCore wb cv (getParam ps "value"), true)
  else if tid = "to_csv" then
    match getParam ps "file" with
    | Option.none => (.error (.missingParam "file"), false)
    | some fv =>
      match load_workbook_from_b64 fv with
      | .error e => (.error e, true)
      | .ok wb => (toCsvCore wb, true)
  else (.error (.toolNotFound tid), false)

instance {ε α : Type} [DecidableEq ε] [DecidableEq α] : DecidableEq (Except ε α) := fun a b =>
  match a, b with
  | .ok x, .ok y =>
    if h : x = y then isTrue (by rw [h]) else isFalse (by intro hh; cases hh; exact h rfl)
  | .error x, .error y =>
    if h : x = y then isTrue (by rw [h]) else isFalse (by intro hh; cases hh; exact h rfl)
  | .ok _, .error _ => isFalse (by intro hh; cases hh)
  | .error _, .ok _ => isFalse (by intro hh; cases hh)

/-- The JSON response: status plus either a result body
`{"result": ...}` or an error body `{"error": msg}`. -/
structure Response where
  status : Nat
  body : Except String ResultVal
deriving DecidableEq, Repr

def mkResponse : Except RunErr ResultVal → Response
  | .ok r => ⟨200, .ok r⟩
  | .error e => ⟨e.status, .error e.message⟩

/-- The whole `POST /mcp/run` handler.  A missing `tool_id` reads as
Python `None`, which matches no branch and reaches the 404 case. -/
def run_tool (req : Request) : Response × Bool :=
  match req.tool_id with
  | some tid =>
    let rd := dispatch tid req.parameters
    (mkResponse rd.1, rd.2)
  | Option.none => (mkResponse (.error (.toolNotFound "None")), false)

/-- A batch of requests handled one by one (each request decodes its
own file and shares nothing with the others). -/
def serve (rs : List Request) : List Response :=
  rs.map (fun r => (run_tool r).1)

/-! ## Specification-side views of a resolved range -/

/-- The exact rational values of the numeric cells of a resolved range
(all of them, when every numeric cell is finite). -/
def rangeNums (cells : List (List PyVal)) : List ℚ :=
  cells.flatten.filterMap numRat?

/-- How many cells of a resolved range are numeric. -/
def rangeCount (cells : List (List PyVal)) : Nat :=
  (cells.flatten.filter isNumeric).length

/-- The coerced value `set_cell` stores for a string parameter. -/
def coerceStr (s : String) : PyVal :=
  match pyFloatOfString s with
  | some x => .float x
  | Option.none => .str s

/-! ## The wire-level view of a response

`ResultVal` carries the semantic outcome of a tool; what the client
receives for a file result is the serialized form.  `workbook.save`
writes a zip container whose entry headers carry the save time
(`zipfile.ZipInfo` stamps entries with the current local time, and
openpyxl offers no way to pin it), so the xlsx bytes — and hence the
base64 data URL in the JSON body — depend on the wall clock as well as
on the workbook content.  CSV output is plain text and carries no
timestamp. -/

/-- The bytes `workbook.save` writes at save time `stamp`: the cell
content plus the time-dependent zip entry stamps.  Two saves of the
same workbook at different times give different bytes. -/
structure XlsxBytes where
  content : Workbook
  stamp : Nat
deriving DecidableEq, Repr

/-- A file payload as it appears on the wire. -/
inductive WireFile where
  | xlsxWire (b : XlsxBytes)
  | csvWire (s : String)
deriving DecidableEq, Repr

/-- A JSON response body at the HTTP boundary, with file payloads in
their serialized (data URL) form. -/
inductive WireBody where
  | wireError (m : String)
  | wireValue (v : PyVal)
  | wireFile (f : WireFile)
deriving DecidableEq, Repr

/-- Serialize a response body at save time `t`: only xlsx output goes
through `workbook.save` and picks up the clock. -/
def wireBody (t : Nat) : Except String ResultVal → WireBody
  | .error m => .wireError m
  | .ok (.value v) => .wireValue v
  | .ok (.fileOut (.xlsxFile wb)) => .wireFile (.xlsxWire ⟨wb, t⟩)
  | .ok (.fileOut (.csvFile s)) => .wireFile (.csvWire s)

/-- Whether a response body contains an xlsx file (the only
time-dependent payload). -/
def isXlsxBody : Except String ResultVal → Bool
  | .ok (.fileOut (.xlsxFile _)) => true
  | _ => false

/-- The observable HTTP response to a request handled at time `t`:
status and serialized JSON body. -/
def run_tool_at (t : Nat) (req : Request) : Nat × WireBody :=
  ((run_tool req).1.status, wireBody t (run_tool req).1.body)

/-- A batch of requests handled one by one, each at its own time. -/
def serveAt (rs : List (Nat × Request)) : List (Nat × WireBody) :=
  rs.map (fun p => run_tool_at p.1 p.2)

/-! # Lemmas

## Numeric accumulation -/

theorem numRat?_eq_none {v : PyVal} (h : isNumeric v = false) : numRat? v = Option.none := by
  cases v <;> simp_all [isNumeric, numRat?]

theorem numRat?_isSome_numeric {v : PyVal} {y : ℚ} (h : numRat? v = some y) :
    isNumeric v = true := by
  cases v <;> simp_all [isNumeric, numRat?]

theorem numAdd_toRat {a : PyNum} {v : PyVal} {x y : ℚ}
    (ha : a.toRat? = some x) (hv : numRat? v = some y) :
    (numAdd a (valToNum v)).toRat? = some (x + y) := by
  cases a with
  | int n =>
    cases v with
    | bool b =>
      cases b <;> simp_all [numAdd, valToNum, numRat?, PyNum.toRat?]
    | int m =>
      simp_all [numAdd, valToNum, numRat?, PyNum.toRat?]
    | float pf =>
      cases pf <;>
        simp_all [numAdd, valToNum, numRat?, PyNum.toRat?, pfAdd, PyNum.toPF]
    | none => simp_all [numRat?]
    | str s => simp_all [numRat?]
  | float pf =>
    cases pf with
    | finite p =>
      cases v with
      | bool b =>
        cases b <;>
          simp_all [numAdd, valToNum, numRat?, PyNum.toRat?, pfAdd, PyNum.toPF]
      | int m =>
        simp_all [numAdd, valToNum, numRat?, PyNum.toRat?, pfAdd, PyNum.toPF]
      | float pf2 =>
        cases pf2 <;>
          simp_all [numAdd, valToNum, numRat?, PyNum.toRat?, pfAdd, PyNum.toPF]
      | none => simp_all [numRat?]
      | str s => simp_all [numRat?]
    | infty s => simp_all [PyNum.toRat?]
    | nan => simp_all [PyNum.toRat?]

theorem foldl_cellStep_toRat :
    ∀ (l : List PyVal) (t : PyNum) (k : Nat) (x : ℚ),
      (∀ v ∈ l, isNumeric v = true → (numRat? v).isSome) →
      t.toRat? = some x →
      ((l.foldl cellStep (t, k)).1.toRat? = some (x + (l.filterMap numRat?).sum) ∧
       (l.foldl cellStep (t, k)).2 = k + (l.filter isNumeric).length)
  | [], t, k, x, _, ht => by simp [ht]
  | v :: l, t, k, x, hfin, ht => by
    by_cases hnum : isNumeric v = true
    · obtain ⟨y, hy⟩ := Option.isSome_iff_exists.mp (hfin v (List.mem_cons_self v l) hnum)
      have hstep : cellStep (t, k) v = (numAdd t (valToNum v), k + 1) := by
        simp [cellStep, hnum]
      have hrec := foldl_cellStep_toRat l (numAdd t (valToNum v)) (k + 1) (x + y)
        (fun w hw hw2 => hfin w (List.mem_cons_of_mem v hw) hw2) (numAdd_toRat ht hy)
      refine ⟨?_, ?_⟩
      · rw [List.foldl_cons, hstep, hrec.1, List.filterMap_cons, hy]
        simp [add_assoc]
      · rw [List.foldl_cons, hstep, hrec.2, List.filter_cons]
        simp [hnum]
        omega
    · have hno : isNumeric v = false := by simpa using hnum
      have hnone : numRat? v = Option.none := numRat?_eq_none hno
      have hstep : cellStep (t, k) v = (t, k) := by simp [cellStep, hno]
      have hrec := foldl_cellStep_toRat l t k x
        (fun w hw hw2 => hfin w (List.mem_cons_of_mem v hw) hw2) ht
      refine ⟨?_, ?_⟩
      · rw [List.foldl_cons, hstep, hrec.1, List.filterMap_cons, hnone]
      · rw [List.foldl_cons, hstep, hrec.2, List.filter_cons]
        simp [hno]

theorem foldCells_eq_flatten (cells : List (List PyVal)) :
    foldCells cells = cells.flatten.foldl cellStep (.int 0, 0) :=
  (List.foldl_flatten cellStep (.int 0, 0) cells).symm

theorem foldCells_toRat (cells : List (List PyVal))
    (hfin : ∀ v ∈ cells.flatten, isNumeric v = true → (numRat? v).isSome) :
    (foldCells cells).1.toRat? = some (rangeNums cells).sum ∧
    (foldCells cells).2 = rangeCount cells := by
  have h := foldl_cellStep_toRat cells.flatten (.int 0) 0 0 hfin rfl
  rw [foldCells_eq_flatten]
  constructor
  · rw [h.1, zero_add]; rfl
  · rw [h.2, Nat.zero_add]; rfl

theorem foldl_cellStep_no_numeric :
    ∀ (l : List PyVal) (acc : PyNum × Nat),
      (∀ v ∈ l, isNumeric v = false) → l.foldl cellStep acc = acc
  | [], _, _ => rfl
  | v :: l, acc, h => by
    have hstep : cellStep acc v = acc := by
      simp [cellStep, h v (List.mem_cons_self v l)]
    rw [List.foldl_cons, hstep]
    exact foldl_cellStep_no_numeric l acc (fun w hw => h w (List.mem_cons_of_mem v hw))

theorem foldCells_no_numeric (cells : List (List PyVal))
    (h : ∀ v ∈ cells.flatten, isNumeric v = false) :
    foldCells cells = (.int 0, 0) := by
  rw [foldCells_eq_flatten]
  exact foldl_cellStep_no_numeric _ _ h

theorem toPF_of_toRat {t : PyNum} {x : ℚ} (h : t.toRat? = some x) :
    t.toPF = .finite x := by
  cases t with
  | int n => simp_all [PyNum.toRat?, PyNum.toPF]
  | float pf => cases pf <;> simp_all [PyNum.toRat?, PyNum.toPF]

theorem all_not_numeric_of_rangeNums_nil {cells : List (List PyVal)}
    (hfin : ∀ v ∈ cells.flatten, isNumeric v = true → (numRat? v).isSome)
    (hnil : rangeNums cells = []) :
    ∀ v ∈ cells.flatten, isNumeric v = false := by
  intro v hv
  by_contra hny
  have hnum : isNumeric v = true := by simpa using hny
  obtain ⟨y, hy⟩ := Option.isSome_iff_exists.mp (hfin v hv hnum)
  have hmem : y ∈ rangeNums cells := List.mem_filterMap.mpr ⟨v, hv, hy⟩
  rw [hnil] at hmem
  simp at hmem

theorem sumCore_resolved {wb : Workbook} {r sn addr : String} {g : Grid}
    {cells : List (List PyVal)}
    (hsplit : parse_range_string r = some (sn, addr))
    (hws : wb.findSheet sn = some g)
    (hres : resolveCells g (classifyAddr addr.data) = some cells) :
    sumCore wb (.pstr r) = .ok (.value (numToVal (foldCells cells).1)) := by
  cases hc : classifyAddr addr.data with
  | single r1 c1 => rw [hc] at hres; simp [resolveCells] at hres
  | flat => rw [hc] at hres; simp [resolveCells] at hres
  | rect r1 c1 r2 c2 => rw [hc] at hres; simp [sumCore, parseRefParam, hsplit, hws, hc, hres]
  | colspan c1 c2 => rw [hc] at hres; simp [sumCore, parseRefParam, hsplit, hws, hc, hres]
  | rowspan r1 r2 => rw [hc] at hres; simp [sumCore, parseRefParam, hsplit, hws, hc, hres]
  | bad => rw [hc] at hres; simp [resolveCells] at hres

theorem avgCore_resolved {wb : Workbook} {r sn addr : String} {g : Grid}
    {cells : List (List PyVal)}
    (hsplit : parse_range_string r = some (sn, addr))
    (hws : wb.findSheet sn = some g)
    (hres : resolveCells g (classifyAddr addr.data) = some cells) :
    avgCore wb (.pstr r) =
      (if (foldCells cells).2 = 0 then .ok (.value (.int 0))
       else .ok (.value (.float (pfDivNat (foldCells cells).1.toPF (foldCells cells).2)))) := by
  cases hc : classifyAddr addr.data with
  | single r1 c1 => rw [hc] at hres; simp [resolveCells] at hres
  | flat => rw [hc] at hres; simp [resolveCells] at hres
  | rect r1 c1 r2 c2 => rw [hc] at hres; simp [avgCore, parseRefParam, hsplit, hws, hc, hres]
  | colspan c1 c2 => rw [hc] at hres; simp [avgCore, parseRefParam, hsplit, hws, hc, hres]
  | rowspan r1 r2 => rw [hc] at hres; simp [avgCore, parseRefParam, hsplit, hws, hc, hres]
  | bad => rw [hc] at hres; simp [resolveCells] at hres

theorem dispatch_sum_range {ps : Params} {wb : Workbook} {rv : ParamVal}
    (hf : getParam ps "file" = some (.pfile (.valid wb)))
    (hr : getParam ps "range" = some rv) :
    dispatch "sum_range" ps = (sumCore wb rv, true) := by
  simp [dispatch, hf, hr, load_workbook_from_b64]

theorem dispatch_avg_range {ps : Params} {wb : Workbook} {rv : ParamVal}
    (hf : getParam ps "file" = some (.pfile (.valid wb)))
    (hr : getParam ps "range" = some rv) :
    dispatch "avg_range" ps = (avgCore wb rv, true) := by
  simp [dispatch, hf, hr, load_workbook_from_b64]

/-- Fidelity of the flattening: openpyxl returns a flat cell tuple for
single-column and single-row spans, so `sum_range` / `avg_range` fail
on them with the 400 `TypeError` of the nested loops, while
multi-column spans still sum; `sum_range_correct` / `avg_range_correct`
therefore do not apply to single spans (their resolution hypothesis is
false there). -/
theorem single_span_flattened :
    classifyAddr "A:A".data = .flat ∧
    classifyAddr "1:1".data = .flat ∧
    classifyAddr "A:B".data = .colspan 1 2 ∧
    resolveCells [[.int 2, .int 5], [.int 4, .int 7]] (classifyAddr "A:A".data) =
      Option.none ∧
    run_tool ⟨some "sum_range",
        [("file", .pfile (.valid ⟨[("S", [[.int 2, .int 5], [.int 4, .int 7]])]⟩)),
         ("range", .pstr "S!A:A")]⟩ =
      (⟨400, .error "Missing or invalid parameter: 'Cell' object is not iterable"⟩, true) ∧
    run_tool ⟨some "avg_range",
        [("file", .pfile (.valid ⟨[("S", [[.int 2, .int 5], [.int 4, .int 7]])]⟩)),
         ("range", .pstr "S!1:1")]⟩ =
      (⟨400, .error "Missing or invalid parameter: 'Cell' object is not iterable"⟩, true) ∧
    run_tool ⟨some "sum_range",
        [("file", .pfile (.valid ⟨[("S", [[.int 2, .int 5], [.int 4, .int 7]])]⟩)),
         ("range", .pstr "S!A:B")]⟩ =
      (⟨200, .ok (.value (.int 18))⟩, true) := by
  decide

/-! ## Claim theorems: C1, C2 -/

/-- **C1.** For every valid spreadsheet file and every resolvable range
reference, `sum_range` returns a result value equal to the arithmetic
sum of the numeric cell values in the range (booleans being numeric per
the code's `isinstance` test); non-numeric cells contribute nothing,
and a range with no numeric cells yields 0.  The resolution hypothesis
covers every reference the loops can iterate: all bounded rectangles
`A1:B10` (the spec's range model, single-cell rectangles included) and
multi-column / multi-row spans; single spans are flattened by the sheet
lookup and fail with `TypeError` (see `single_span_flattened`).
(Finite numeric cells; machine floats are abstracted as exact
rationals.) -/
theorem sum_range_correct
    (ps : Params) (wb : Workbook) (r sn addr : String) (g : Grid)
    (cells : List (List PyVal))
    (hf : getParam ps "file" = some (.pfile (.valid wb)))
    (hr : getParam ps "range" = some (.pstr r))
    (hsplit : parse_range_string r = some (sn, addr))
    (hws : wb.findSheet sn = some g)
    (hres : resolveCells g (classifyAddr addr.data) = some cells)
    (hfin : ∀ v ∈ cells.flatten, isNumeric v = true → (numRat? v).isSome) :
    ∃ t : PyNum,
      run_tool ⟨some "sum_range", ps⟩ = (⟨200, .ok (.value (numToVal t))⟩, true) ∧
      t.toRat? = some (rangeNums cells).sum ∧
      (rangeNums cells = [] → numToVal t = .int 0) := by
  refine ⟨(foldCells cells).1, ?_, (foldCells_toRat cells hfin).1, ?_⟩
  · have hcore := sumCore_resolved hsplit hws hres
    simp [run_tool, dispatch_sum_range hf hr, hcore, mkResponse]
  · intro hnil
    have hall := all_not_numeric_of_rangeNums_nil hfin hnil
    rw [foldCells_no_numeric cells hall]
    rfl

/-- Witness for C1 on the spec's worked example: sheet `Sheet1` with
A1=2, A2=4, A3="x" and range `Sheet1!A1:A3` sums to 6. -/
theorem sum_range_correct_witness :
    ∃ t : PyNum,
      run_tool ⟨some "sum_range",
        [("file", .pfile (.valid ⟨[("Sheet1", [[.int 2], [.int 4], [.str "x"]])]⟩)),
         ("range", .pstr "Sheet1!A1:A3")]⟩ =
        (⟨200, .ok (.value (numToVal t))⟩, true) ∧
      t.toRat? = some (rangeNums [[.int 2], [.int 4], [.str "x"]]).sum ∧
      (rangeNums [[.int 2], [.int 4], [.str "x"]] = [] → numToVal t = .int 0) :=
  sum_range_correct _ ⟨[("Sheet1", [[.int 2], [.int 4], [.str "x"]])]⟩
    "Sheet1!A1:A3" "Sheet1" "A1:A3" [[.int 2], [.int 4], [.str "x"]]
    [[.int 2], [.int 4], [.str "x"]]
    (by decide) (by decide) (by decide) (by decide) (by decide) (by decide)

/-- **C2.** For every valid spreadsheet file and every resolvable range
reference, `avg_range` returns the sum of the numeric cell values
divided by the count of numeric cells, the quotient times the count
recovering the sum exactly (machine floats abstracted as exact
rationals); a range with no numeric cells yields 0 rather than an
error.  Range coverage as in `sum_range_correct`: bounded rectangles
and multi-column / multi-row spans; flattened single spans fail with
`TypeError` (see `single_span_flattened`). -/
theorem avg_range_correct
    (ps : Params) (wb : Workbook) (r sn addr : String) (g : Grid)
    (cells : List (List PyVal))
    (hf : getParam ps "file" = some (.pfile (.valid wb)))
    (hr : getParam ps "range" = some (.pstr r))
    (hsplit : parse_range_string r = some (sn, addr))
    (hws : wb.findSheet sn = some g)
    (hres : resolveCells g (classifyAddr addr.data) = some cells)
    (hfin : ∀ v ∈ cells.flatten, isNumeric v = true → (numRat? v).isSome) :
    (rangeCount cells = 0 →
      run_tool ⟨some "avg_range", ps⟩ = (⟨200, .ok (.value (.int 0))⟩, true)) ∧
    (rangeCount cells ≠ 0 →
      run_tool ⟨some "avg_range", ps⟩ =
        (⟨200, .ok (.value (.float (.finite
          ((rangeNums cells).sum / (rangeCount cells : ℚ)))))⟩, true) ∧
      ((rangeNums cells).sum / (rangeCount cells : ℚ)) * (rangeCount cells : ℚ) =
        (rangeNums cells).sum) := by
  have hcore := avgCore_resolved hsplit hws hres
  have hfold := foldCells_toRat cells hfin
  constructor
  · intro h0
    rw [hfold.2] at hcore
    simp [h0] at hcore
    simp [run_tool, dispatch_avg_range hf hr, hcore, mkResponse]
  · intro hne
    have hpf : (foldCells cells).1.toPF = .finite (rangeNums cells).sum :=
      toPF_of_toRat hfold.1
    rw [hfold.2] at hcore
    rw [if_neg hne] at hcore
    rw [hpf] at hcore
    constructor
    · simp [run_tool, dispatch_avg_range hf hr, hcore, mkResponse, pfDivNat]
    · exact div_mul_cancel₀ _ (by exact_mod_cast hne)

/-- Witness for C2 on the spec's worked example: average of
`Sheet1!A1:A3` with A1=2, A2=4, A3="x" is 3. -/
theorem avg_range_correct_witness :
    (rangeCount [[.int 2], [.int 4], [.str "x"]] ≠ 0) ∧
    (run_tool ⟨some "avg_range",
        [("file", .pfile (.valid ⟨[("Sheet1", [[.int 2], [.int 4], [.str "x"]])]⟩)),
         ("range", .pstr "Sheet1!A1:A3")]⟩ =
      (⟨200, .ok (.value (.float (.finite
        ((rangeNums [[.int 2], [.int 4], [.str "x"]]).sum /
          (rangeCount [[.int 2], [.int 4], [.str "x"]] : ℚ)))))⟩, true)) :=
  ⟨by decide,
    ((avg_range_correct _ ⟨[("Sheet1", [[.int 2], [.int 4], [.str "x"]])]⟩
      "Sheet1!A1:A3" "Sheet1" "A1:A3" [[.int 2], [.int 4], [.str "x"]]
      [[.int 2], [.int 4], [.str "x"]]
      (by decide) (by decide) (by decide) (by decide) (by decide) (by decide)).2
      (by decide)).1⟩

/-! ## Coordinates are positive -/

theorem letterVal_pos {c : Char} {v : Nat} (h : letterVal c = some v) : 1 ≤ v := by
  unfold letterVal at h
  split at h
  · simp at h; omega
  · split at h
    · simp at h; omega
    · simp at h

theorem colValAux_mono :
    ∀ (l : List Char) (acc m : Nat), colValAux l acc = some m → acc ≤ m
  | [], acc, m, h => by simp [colValAux] at h; omega
  | c :: l, acc, m, h => by
    cases hl : letterVal c with
    | none => simp [colValAux, hl] at h
    | some v =>
      rw [colValAux, hl] at h
      have hrec := colValAux_mono l (acc * 26 + v) m h
      omega

theorem colValAux_pos {l : List Char} {acc m : Nat}
    (hne : l ≠ []) (h : colValAux l acc = some m) : 1 ≤ m := by
  cases l with
  | nil => exact absurd rfl hne
  | cons c l =>
    cases hl : letterVal c with
    | none => rw [colValAux, hl] at h; simp at h
    | some v =>
      rw [colValAux, hl] at h
      have := colValAux_mono l (acc * 26 + v) m h
      have := letterVal_pos hl
      omega

theorem parseCoord_pos {l : List Char} {rr cc : Nat}
    (h : parseCoord l = some (rr, cc)) : 1 ≤ rr ∧ 1 ≤ cc := by
  simp only [parseCoord] at h
  split at h
  · simp at h
  · rename_i h1
    split at h
    · simp at h
    · rename_i cv hcv
      split at h
      · simp at h
      · split at h
        · simp at h
        · rename_i h3
          simp only [Option.some.injEq, Prod.mk.injEq] at h
          obtain ⟨hr, hc⟩ := h
          have hpos : 1 ≤ cv :=
            colValAux_pos (fun hnil => h1 (Or.inl (by rw [hnil]; rfl))) hcv
          exact ⟨by omega, by omega⟩

/-! ## Writing then reading a cell -/

theorem length_padRow (row : List PyVal) (c : Nat) :
    (padRow row c).length = max row.length c := by
  simp [padRow]
  omega

theorem length_padGrid (g : Grid) (r : Nat) :
    (padGrid g r).length = max g.length r := by
  simp [padGrid]
  omega

theorem getD_set_self {α : Type} (l : List α) (i : Nat) (a d : α) (h : i < l.length) :
    (l.set i a).getD i d = a := by
  rw [List.getD_eq_getElem?_getD, List.getElem?_set_self h]
  rfl

theorem setRow_getD (row : List PyVal) (c : Nat) (v : PyVal) (hc : 1 ≤ c) :
    (setRow row c v).getD (c - 1) PyVal.none = v := by
  refine getD_set_self _ _ _ _ ?_
  rw [length_padRow]
  omega

theorem cellAt_setGrid (g : Grid) (r c : Nat) (v : PyVal) (hr : 1 ≤ r) (hc : 1 ≤ c) :
    cellAt (setGrid g r c v) r c = v := by
  unfold cellAt setGrid
  rw [getD_set_self]
  · exact setRow_getD _ _ _ hc
  · rw [length_padGrid]
    omega

theorem find_setSheet_aux :
    ∀ (l : List (String × Grid)) (name : String) (g g' : Grid),
      (l.find? (fun p => p.1 == name)).map (·.2) = some g →
      ((l.map (fun p => if p.1 == name then (p.1, g') else p)).find?
          (fun p => p.1 == name)).map (·.2) = some g'
  | [], _, _, _, h => by simp at h
  | p :: l, name, g, g', h => by
    by_cases hp : p.1 == name
    · have hhead : (if p.1 == name then (p.1, g') else p) = (p.1, g') := if_pos hp
      rw [List.map_cons, hhead, List.find?_cons]
      rw [show (((p.1, g') : String × Grid).1 == name) = true from hp]
      rfl
    · have hpf : (p.1 == name) = false := by simpa using hp
      have hhead : (if p.1 == name then (p.1, g') else p) = p := by rw [hpf]; rfl
      rw [List.map_cons, hhead, List.find?_cons, hpf]
      rw [List.find?_cons, hpf] at h
      exact find_setSheet_aux l name g g' h

theorem findSheet_setSheet {wb : Workbook} {name : String} {g : Grid} (g' : Grid)
    (h : wb.findSheet name = some g) :
    (wb.setSheet name g').findSheet name = some g' :=
  find_setSheet_aux wb.sheets name g g' h

/-! ## Address classes and single cells -/

theorem classify_single_parseCoord {l : List Char} {r c : Nat}
    (h : classifyAddr l = .single r c) : parseCoord l = some (r, c) := by
  unfold classifyAddr at h
  cases hsp : splitFirst ':' l with
  | none =>
    rw [hsp] at h
    cases hd : digitsOnlyVal l with
    | some _ => rw [hd] at h; simp at h
    | none =>
      rw [hd] at h
      cases hl : lettersOnlyVal l with
      | some _ => rw [hl] at h; simp at h
      | none =>
        rw [hl] at h
        cases hp : parseCoord l with
        | none => rw [hp] at h; simp at h
        | some p =>
          rw [hp] at h
          cases p with
          | mk p1 p2 =>
            simp at h
            rw [h.1, h.2]
  | some p =>
    rw [hsp] at h
    repeat' split at h
    all_goals simp_all

theorem getCore_single {wb : Workbook} {r sn addr : String} {g : Grid} {r1 c1 : Nat}
    (hsplit : parse_range_string r = some (sn, addr))
    (hws : wb.findSheet sn = some g)
    (hclass : classifyAddr addr.data = .single r1 c1) :
    getCore wb (.pstr r) = .ok (.value (cellAt g r1 c1)) := by
  simp [getCore, parseRefParam, hsplit, hws, hclass]

theorem setCore_single {wb : Workbook} {r sn addr : String} {g : Grid} {r1 c1 : Nat}
    {vv : ParamVal} {v : PyVal}
    (hsplit : parse_range_string r = some (sn, addr))
    (hws : wb.findSheet sn = some g)
    (hclass : classifyAddr addr.data = .single r1 c1)
    (hco : coerceValue vv = .ok v) :
    setCore wb (.pstr r) (some vv) =
      .ok (.fileOut (.xlsxFile (wb.setSheet sn (setGrid g r1 c1 v)))) := by
  simp [setCore, parseRefParam, hsplit, hws, hclass, hco]

theorem dispatch_get_cell {ps : Params} {wb : Workbook} {cv : ParamVal}
    (hf : getParam ps "file" = some (.pfile (.valid wb)))
    (hc : getParam ps "cell" = some cv) :
    dispatch "get_cell" ps = (getCore wb cv, true) := by
  simp [dispatch, hf, hc, load_workbook_from_b64]

theorem dispatch_set_cell {ps : Params} {wb : Workbook} {cv : ParamVal}
    (hf : getParam ps "file" = some (.pfile (.valid wb)))
    (hc : getParam ps "cell" = some cv) :
    dispatch "set_cell" ps = (setCore wb cv (getParam ps "value"), true) := by
  simp [dispatch, hf, hc, load_workbook_from_b64]

/-! ## Claim theorems: C3, C9 -/

/-- **C3.** For every valid spreadsheet file, resolvable single-cell
reference and string value: running `set_cell` and then `get_cell` on the
same address against the re-encoded file returned by `set_cell` yields the
written value — the parsed number when the string parses under decimal
float parsing, otherwise the original string verbatim. -/
theorem set_get_cell_roundtrip
    (wb : Workbook) (ref sn addr val : String) (g : Grid) (r c : Nat)
    (hsplit : parse_range_string ref = some (sn, addr))
    (hws : wb.findSheet sn = some g)
    (hclass : classifyAddr addr.data = .single r c) :
    ∃ wb' : Workbook,
      run_tool ⟨some "set_cell",
        [("file", .pfile (.valid wb)), ("cell", .pstr ref), ("value", .pstr val)]⟩ =
        (⟨200, .ok (.fileOut (.xlsxFile wb'))⟩, true) ∧
      run_tool ⟨some "get_cell",
        [("file", .pfile (.valid wb')), ("cell", .pstr ref)]⟩ =
        (⟨200, .ok (.value (coerceStr val))⟩, true) ∧
      (∀ x, pyFloatOfString val = some x → coerceStr val = .float x) ∧
      (pyFloatOfString val = Option.none → coerceStr val = .str val) := by
  obtain ⟨hr1, hc1⟩ := parseCoord_pos (classify_single_parseCoord hclass)
  refine ⟨wb.setSheet sn (setGrid g r c (coerceStr val)), ?_, ?_, ?_, ?_⟩
  · have hf : getParam [("file", ParamVal.pfile (.valid wb)), ("cell", ParamVal.pstr ref),
        ("value", ParamVal.pstr val)] "file" = some (.pfile (.valid wb)) := rfl
    have hcp : getParam [("file", ParamVal.pfile (.valid wb)), ("cell", ParamVal.pstr ref),
        ("value", ParamVal.pstr val)] "cell" = some (.pstr ref) := rfl
    have hvv : getParam [("file", ParamVal.pfile (.valid wb)), ("cell", ParamVal.pstr ref),
        ("value", ParamVal.pstr val)] "value" = some (.pstr val) := rfl
    have hco : coerceValue (ParamVal.pstr val) = .ok (coerceStr val) := rfl
    have hset := setCore_single hsplit hws hclass hco
    simp [run_tool, dispatch_set_cell hf hcp, hvv, hset, mkResponse]
  · have hws' := findSheet_setSheet (setGrid g r c (coerceStr val)) hws
    have hget := getCore_single hsplit hws' hclass
    rw [cellAt_setGrid g r c (coerceStr val) hr1 hc1] at hget
    have hf : getParam [("file",
        ParamVal.pfile (.valid (wb.setSheet sn (setGrid g r c (coerceStr val))))),
        ("cell", ParamVal.pstr ref)] "file" =
        some (.pfile (.valid (wb.setSheet sn (setGrid g r c (coerceStr val))))) := rfl
    have hcp : getParam [("file",
        ParamVal.pfile (.valid (wb.setSheet sn (setGrid g r c (coerceStr val))))),
        ("cell", ParamVal.pstr ref)] "cell" = some (.pstr ref) := rfl
    simp [run_tool, dispatch_get_cell hf hcp, hget, mkResponse]
  · intro x hx; simp [coerceStr, hx]
  · intro hx; simp [coerceStr, hx]

/-- Witness for C3: writing "hello" (a non-numeric string) to
`Sheet1!B2` and reading it back returns the string verbatim. -/
theorem set_get_cell_roundtrip_witness :
    ∃ wb' : Workbook,
      run_tool ⟨some "set_cell",
        [("file", .pfile (.valid ⟨[("Sheet1", [[.int 2]])]⟩)),
         ("cell", .pstr "Sheet1!B2"), ("value", .pstr "hello")]⟩ =
        (⟨200, .ok (.fileOut (.xlsxFile wb'))⟩, true) ∧
      run_tool ⟨some "get_cell",
        [("file", .pfile (.valid wb')), ("cell", .pstr "Sheet1!B2")]⟩ =
        (⟨200, .ok (.value (coerceStr "hello"))⟩, true) ∧
      (∀ x, pyFloatOfString "hello" = some x → coerceStr "hello" = .float x) ∧
      (pyFloatOfString "hello" = Option.none → coerceStr "hello" = .str "hello") :=
  set_get_cell_roundtrip ⟨[("Sheet1", [[.int 2]])]⟩ "Sheet1!B2" "Sheet1" "B2" "hello"
    [[.int 2]] 2 2 (by decide) (by decide) (by decide)

/-- **C9.** Every `set_cell` whose value string parses as a float —
including integer-looking strings such as "5" and the special forms
"inf", "-inf" and "nan" — stores the float result of the parse, never an
integer, and a subsequent `get_cell` returns that float. -/
theorem set_cell_stores_float
    (wb : Workbook) (ref sn addr val : String) (g : Grid) (r c : Nat) (x : PFloat)
    (hsplit : parse_range_string ref = some (sn, addr))
    (hws : wb.findSheet sn = some g)
    (hclass : classifyAddr addr.data = .single r c)
    (hparse : pyFloatOfString val = some x) :
    run_tool ⟨some "set_cell",
        [("file", .pfile (.valid wb)), ("cell", .pstr ref), ("value", .pstr val)]⟩ =
      (⟨200, .ok (.fileOut (.xlsxFile
        (wb.setSheet sn (setGrid g r c (.float x)))))⟩, true) ∧
    cellAt (setGrid g r c (.float x)) r c = .float x ∧
    (∀ n : ℤ, PyVal.float x ≠ .int n) ∧
    pyFloatOfString "5" = some (.finite 5) ∧
    pyFloatOfString "inf" = some (.infty false) ∧
    pyFloatOfString "-inf" = some (.infty true) ∧
    pyFloatOfString "nan" = some .nan ∧
    run_tool ⟨some "get_cell",
        [("file", .pfile (.valid (wb.setSheet sn (setGrid g r c (.float x))))),
         ("cell", .pstr ref)]⟩ =
      (⟨200, .ok (.value (.float x))⟩, true) := by
  obtain ⟨hr1, hc1⟩ := parseCoord_pos (classify_single_parseCoord hclass)
  have hcs : coerceStr val = .float x := by simp [coerceStr, hparse]
  refine ⟨?_, cellAt_setGrid g r c (.float x) hr1 hc1, by simp, by decide, by decide,
    by decide, by decide, ?_⟩
  · have hco : coerceValue (.pstr val) = .ok (.float x) := by
      have hdef : coerceValue (.pstr val) = .ok (coerceStr val) := rfl
      rw [hdef, hcs]
    have hset := setCore_single hsplit hws hclass hco
    have hf : getParam [("file", ParamVal.pfile (.valid wb)), ("cell", ParamVal.pstr ref),
        ("value", ParamVal.pstr val)] "file" = some (.pfile (.valid wb)) := rfl
    have hcp : getParam [("file", ParamVal.pfile (.valid wb)), ("cell", ParamVal.pstr ref),
        ("value", ParamVal.pstr val)] "cell" = some (.pstr ref) := rfl
    have hvv : getParam [("file", ParamVal.pfile (.valid wb)), ("cell", ParamVal.pstr ref),
        ("value", ParamVal.pstr val)] "value" = some (.pstr val) := rfl
    simp [run_tool, dispatch_set_cell hf hcp, hvv, hset, mkResponse]
  · have hws' := findSheet_setSheet (setGrid g r c (.float x)) hws
    have hget := getCore_single hsplit hws' hclass
    rw [cellAt_setGrid g r c (.float x) hr1 hc1] at hget
    have hf : getParam [("file",
        ParamVal.pfile (.valid (wb.setSheet sn (setGrid g r c (.float x))))),
        ("cell", ParamVal.pstr ref)] "file" =
        some (.pfile (.valid (wb.setSheet sn (setGrid g r c (.float x))))) := rfl
    have hcp : getParam [("file",
        ParamVal.pfile (.valid (wb.setSheet sn (setGrid g r c (.float x))))),
        ("cell", ParamVal.pstr ref)] "cell" = some (.pstr ref) := rfl
    simp [run_tool, dispatch_get_cell hf hcp, hget, mkResponse]

/-- Witness for C9: writing "5" to `Sheet1!A1` stores the float 5.0. -/
theorem set_cell_stores_float_witness :
    run_tool ⟨some "set_cell",
        [("file", .pfile (.valid ⟨[("Sheet1", [[.int 2]])]⟩)),
         ("cell", .pstr "Sheet1!A1"), ("value", .pstr "5")]⟩ =
      (⟨200, .ok (.fileOut (.xlsxFile
        (Workbook.setSheet ⟨[("Sheet1", [[.int 2]])]⟩ "Sheet1"
          (setGrid [[.int 2]] 1 1 (.float (.finite 5))))))⟩, true) ∧
    cellAt (setGrid [[.int 2]] 1 1 (.float (.finite 5))) 1 1 = .float (.finite 5) := by
  have h := set_cell_stores_float ⟨[("Sheet1", [[.int 2]])]⟩ "Sheet1!A1" "Sheet1" "A1"
    "5" [[.int 2]] 1 1 (.finite 5) (by decide) (by decide) (by decide) (by decide)
  exact ⟨h.1, h.2.1⟩

/-! ## CSV: the scanner inverts the writer -/

theorem scan_nil (m : ScanMode) (f : List Char) (r : List (List Char))
    (a : List (List (List Char))) :
    scan [] m f r a = if f.isEmpty && r.isEmpty then a else finishRec f r :: a := rfl

theorem scan_base_cons (c : Char) (rest : List Char) (f : List Char) (r : List (List Char))
    (a : List (List (List Char))) :
    scan (c :: rest) .base f r a =
      if c = ',' then scan rest .base [] (f.reverse :: r) a
      else if c = '\r' then scan rest .postCR [] [] (finishRec f r :: a)
      else if c = '"' then
        if f.isEmpty then scan rest .quoted f r a else scan rest .base ('"' :: f) r a
      else scan rest .base (c :: f) r a := rfl

theorem scan_quoted_cons (c : Char) (rest : List Char) (f : List Char) (r : List (List Char))
    (a : List (List (List Char))) :
    scan (c :: rest) .quoted f r a =
      if c = '"' then scan rest .postQuote f r a
      else scan rest .quoted (c :: f) r a := rfl

theorem scan_postQuote_cons (c : Char) (rest : List Char) (f : List Char)
    (r : List (List Char)) (a : List (List (List Char))) :
    scan (c :: rest) .postQuote f r a =
      if c = '"' then scan rest .quoted ('"' :: f) r a
      else if c = ',' then scan rest .base [] (f.reverse :: r) a
      else if c = '\r' then scan rest .postCR [] [] (finishRec f r :: a)
      else scan rest .base (c :: f) r a := rfl

theorem scan_postCR_cons (c : Char) (rest : List Char) (f : List Char)
    (r : List (List Char)) (a : List (List (List Char))) :
    scan (c :: rest) .postCR f r a =
      if c = '\n' then scan rest .base f r a
      else if c = ',' then scan rest .base [] (f.reverse :: r) a
      else if c = '\r' then scan rest .postCR [] [] (finishRec f r :: a)
      else if c = '"' then
        if f.isEmpty then scan rest .quoted f r a else scan rest .base ('"' :: f) r a
      else scan rest .base (c :: f) r a := rfl

theorem scan_escQ (s : List Char) :
    ∀ (rest f : List Char) (r : List (List Char)) (a : List (List (List Char))),
      scan (escQ s ++ '"' :: rest) .quoted f r a =
        scan rest .postQuote (s.reverse ++ f) r a := by
  induction s with
  | nil =>
    intro rest f r a
    simp [escQ, scan_quoted_cons]
  | cons c t ih =>
    intro rest f r a
    by_cases hc : c = '"'
    · subst hc
      have he : escQ ('"' :: t) = '"' :: '"' :: escQ t := by simp [escQ]
      rw [he, List.cons_append, List.cons_append, scan_quoted_cons, if_pos rfl,
        scan_postQuote_cons, if_pos rfl, ih]
      simp
    · have he : escQ (c :: t) = c :: escQ t := by simp [escQ, hc]
      rw [he, List.cons_append, scan_quoted_cons, if_neg hc, ih]
      simp

theorem scan_safe (s : List Char) :
    ∀ (rest f : List Char) (r : List (List Char)) (a : List (List (List Char))),
      (∀ c ∈ s, isCsvSpecial c = false) →
      scan (s ++ rest) .base f r a = scan rest .base (s.reverse ++ f) r a := by
  induction s with
  | nil => intro rest f r a _; simp
  | cons c t ih =>
    intro rest f r a hs
    have hc := hs c (List.mem_cons_self c t)
    simp only [isCsvSpecial, Bool.or_eq_false_iff, decide_eq_false_iff_not] at hc
    simp only [List.cons_append, scan_base_cons]
    rw [if_neg hc.1.1.1, if_neg hc.1.2, if_neg hc.1.1.2,
      ih rest (c :: f) r a (fun d hd => hs d (List.mem_cons_of_mem c hd))]
    simp

theorem scan_comma (m : ScanMode) (hm : m = ScanMode.base ∨ m = ScanMode.postQuote)
    (rest f r a) :
    scan (',' :: rest) m f r a = scan rest .base [] (f.reverse :: r) a := by
  rcases hm with h | h <;> subst h
  · rw [scan_base_cons, if_pos rfl]
  · rw [scan_postQuote_cons, if_neg (by decide), if_pos rfl]

theorem scan_crlf (m : ScanMode) (hm : m = ScanMode.base ∨ m = ScanMode.postQuote)
    (rest f r a) :
    scan ('\r' :: '\n' :: rest) m f r a = scan rest .base [] [] (finishRec f r :: a) := by
  have hnl : scan ('\n' :: rest) .postCR [] []
      (finishRec f r :: a) = scan rest .base [] [] (finishRec f r :: a) := by
    rw [scan_postCR_cons, if_pos rfl]
  rcases hm with h | h <;> subst h
  · rw [scan_base_cons, if_neg (by decide), if_pos rfl, hnl]
  · rw [scan_postQuote_cons, if_neg (by decide), if_neg (by decide), if_pos rfl, hnl]

theorem scan_encField (fl : List Char) (rest : List Char) (r : List (List Char))
    (a : List (List (List Char))) :
    ∃ m, (m = ScanMode.base ∨ m = ScanMode.postQuote) ∧
      scan (encField fl ++ rest) .base [] r a = scan rest m fl.reverse r a := by
  by_cases hq : fl.any isCsvSpecial
  · refine ⟨.postQuote, Or.inr rfl, ?_⟩
    rw [encField, if_pos hq]
    have : ('"' :: (escQ fl ++ ['"'])) ++ rest = '"' :: (escQ fl ++ '"' :: rest) := by simp
    rw [this, scan_base_cons, if_neg (by decide), if_neg (by decide), if_pos rfl,
      if_pos (by rfl : ([] : List Char).isEmpty = true), scan_escQ]
    simp
  · refine ⟨.base, Or.inl rfl, ?_⟩
    rw [encField, if_neg hq]
    have hsafe : ∀ c ∈ fl, isCsvSpecial c = false := by
      intro c hc
      by_contra hcc
      exact hq (List.any_eq_true.mpr ⟨c, hc, by simpa using hcc⟩)
    rw [scan_safe fl rest [] r a hsafe]
    simp

theorem scan_record :
    ∀ (fs : List (List Char)), fs ≠ [] →
      ∀ (r : List (List Char)) (a : List (List (List Char))) (rest : List Char),
        scan (List.intercalate [','] (fs.map encField) ++ '\r' :: '\n' :: rest) .base [] r a
          = scan rest .base [] [] ((r.reverse ++ fs) :: a)
  | [], h, _, _, _ => absurd rfl h
  | [f], _, r, a, rest => by
    have hone : List.intercalate [','] ([f].map encField) = encField f := by
      simp [List.intercalate, List.intersperse]
    rw [hone]
    obtain ⟨m, hm, hs⟩ := scan_encField f ('\r' :: '\n' :: rest) r a
    rw [hs, scan_crlf m hm]
    simp [finishRec]
  | f :: f' :: t, _, r, a, rest => by
    have hstep : List.intercalate [','] ((f :: f' :: t).map encField) =
        encField f ++ ',' :: List.intercalate [','] ((f' :: t).map encField) := by
      simp [List.intercalate, List.intersperse]
    rw [hstep]
    have hassoc : (encField f ++ ',' :: List.intercalate [','] ((f' :: t).map encField)) ++
        '\r' :: '\n' :: rest =
        encField f ++ ',' :: (List.intercalate [','] ((f' :: t).map encField) ++
          '\r' :: '\n' :: rest) := by
      simp
    rw [hassoc]
    obtain ⟨m, hm, hs⟩ := scan_encField f
      (',' :: (List.intercalate [','] ((f' :: t).map encField) ++ '\r' :: '\n' :: rest)) r a
    rw [hs, scan_comma m hm, List.reverse_reverse,
      scan_record (f' :: t) (by simp) (f :: r) a rest]
    simp

theorem scan_csvContent :
    ∀ (rows : List (List (List Char))), (∀ rec ∈ rows, rec ≠ []) →
      ∀ (a : List (List (List Char))),
        scan (csvContent rows) .base [] [] a = rows.reverse ++ a
  | [], _, a => by simp [csvContent, scan_nil]
  | rec :: rows, h, a => by
    have hc : csvContent (rec :: rows) =
        List.intercalate [','] (rec.map encField) ++ '\r' :: '\n' :: csvContent rows := by
      simp [csvContent, encRecord]
    rw [hc, scan_record rec (h rec (List.mem_cons_self rec rows)) [] a (csvContent rows),
      scan_csvContent rows (fun w hw => h w (List.mem_cons_of_mem rec hw)) _]
    simp

/-- The CSV reader recovers exactly the written records and fields, for
every grid whose records are non-empty (openpyxl sheets always have at
least one column). -/
theorem csvParse_csvContent (rows : List (List (List Char)))
    (h : ∀ rec ∈ rows, rec ≠ []) :
    csvParse (csvContent rows) = rows := by
  rw [csvParse, scan_csvContent rows h []]
  simp

theorem dispatch_to_csv {ps : Params} {wb : Workbook}
    (hf : getParam ps "file" = some (.pfile (.valid wb))) :
    dispatch "to_csv" ps = (toCsvCore wb, true) := by
  simp [dispatch, hf, load_workbook_from_b64]

/-- **C4.** For every valid spreadsheet file whose active (first) sheet
has N rows and M ≥ 1 columns, `to_csv` produces a CSV text with exactly
N records, each of exactly M fields, whose field values are the sheet's
cell values (as `csv.writer` renders them) enumerated row-major; rows
ending in empty cells are not trimmed, since every record keeps all M
fields. -/
theorem to_csv_shape
    (ps : Params) (wb : Workbook) (nm : String) (g : Grid) (M : Nat)
    (hf : getParam ps "file" = some (.pfile (.valid wb)))
    (hhead : wb.sheets.head? = some (nm, g))
    (hM : 1 ≤ M)
    (hrect : ∀ row ∈ g, row.length = M) :
    ∃ s : String,
      run_tool ⟨some "to_csv", ps⟩ = (⟨200, .ok (.fileOut (.csvFile s))⟩, true) ∧
      csvParse s.data = g.map (fun row => row.map (fun v => (pyStr v).data)) ∧
      (csvParse s.data).length = g.length ∧
      ∀ rec ∈ csvParse s.data, rec.length = M := by
  have hne : ∀ rec ∈ g.map (fun row => row.map (fun v => (pyStr v).data)), rec ≠ [] := by
    intro rec hrec
    obtain ⟨row, hrow, hrm⟩ := List.mem_map.mp hrec
    intro hnil
    rw [← hrm] at hnil
    have : row.length = 0 := by
      simpa using congrArg List.length hnil
    rw [hrect row hrow] at this
    omega
  have hrt := csvParse_csvContent _ hne
  refine ⟨⟨csvContent (g.map (fun row => row.map (fun v => (pyStr v).data)))⟩,
    ?_, ?_, ?_, ?_⟩
  · have hcore : toCsvCore wb = .ok (.fileOut (.csvFile
        ⟨csvContent (g.map (fun row => row.map (fun v => (pyStr v).data)))⟩)) := by
      rw [toCsvCore, hhead]
    simp [run_tool, dispatch_to_csv hf, hcore, mkResponse]
  · exact hrt
  · rw [hrt]
    simp
  · intro rec hrec
    rw [hrt] at hrec
    obtain ⟨row, hrow, hrm⟩ := List.mem_map.mp hrec
    rw [← hrm]
    simpa using hrect row hrow

/-- Witness for C4: the example sheet (3 rows, 1 column) yields three
one-field records `2`, `4`, `x`. -/
theorem to_csv_shape_witness :
    ∃ s : String,
      run_tool ⟨some "to_csv",
          [("file", .pfile (.valid ⟨[("Sheet1", [[.int 2], [.int 4], [.str "x"]])]⟩))]⟩ =
        (⟨200, .ok (.fileOut (.csvFile s))⟩, true) ∧
      csvParse s.data =
        ([[.int 2], [.int 4], [.str "x"]] : Grid).map
          (fun row => row.map (fun v => (pyStr v).data)) ∧
      (csvParse s.data).length = ([[.int 2], [.int 4], [.str "x"]] : Grid).length ∧
      ∀ rec ∈ csvParse s.data, rec.length = 1 :=
  to_csv_shape _ ⟨[("Sheet1", [[.int 2], [.int 4], [.str "x"]])]⟩ "Sheet1"
    [[.int 2], [.int 4], [.str "x"]] 1 (by decide) (by decide) (by decide) (by decide)

/-! ## References without a bang -/

theorem splitFirst_eq_none {sep : Char} :
    ∀ {l : List Char}, ¬ sep ∈ l → splitFirst sep l = Option.none
  | [], _ => rfl
  | c :: rest, h => by
    have hc : ¬ c = sep := fun hcc => h (hcc ▸ List.mem_cons_self c rest)
    rw [splitFirst, if_neg hc, splitFirst_eq_none (fun hm => h (List.mem_cons_of_mem c hm))]
    rfl

theorem splitFirst_first {sep : Char} :
    ∀ (a b : List Char), ¬ sep ∈ a → splitFirst sep (a ++ sep :: b) = some (a, b)
  | [], b, _ => by rw [List.nil_append, splitFirst, if_pos rfl]
  | c :: a, b, h => by
    have hc : ¬ c = sep := fun hcc => h (hcc ▸ List.mem_cons_self c a)
    rw [List.cons_append, splitFirst, if_neg hc,
      splitFirst_first a b (fun hm => h (List.mem_cons_of_mem c hm))]
    rfl

theorem parse_range_string_eq_none {s : String} (h : ¬ '!' ∈ s.data) :
    parse_range_string s = Option.none := by
  rw [parse_range_string, splitFirst_eq_none h]
  rfl

theorem parseRefParam_no_bang {s : String} (h : ¬ '!' ∈ s.data) :
    parseRefParam (.pstr s) = .error .invalidReference := by
  simp [parseRefParam, parse_range_string_eq_none h]

/-- **C5.** For all four tools taking a range or cell parameter, a
reference string without `!` fails with the `InvalidReference` error
(the `ValueError` of `parse_range_string`, surfaced as a non-2xx, 500
structured error); and a reference containing `!` is split at the first
`!` only, the address part keeping any later bangs. -/
theorem missing_bang_invalid_reference
    (wb : Workbook) (r : String) (h : ¬ '!' ∈ r.data) :
    (∀ tid, tid = "sum_range" ∨ tid = "avg_range" →
      run_tool ⟨some tid, [("file", .pfile (.valid wb)), ("range", .pstr r)]⟩ =
        (⟨500, .error "Invalid range format. Expected 'SheetName!A1:B10'."⟩, true)) ∧
    (∀ tid, tid = "get_cell" ∨ tid = "set_cell" →
      run_tool ⟨some tid, [("file", .pfile (.valid wb)), ("cell", .pstr r)]⟩ =
        (⟨500, .error "Invalid range format. Expected 'SheetName!A1:B10'."⟩, true)) ∧
    (∀ a b : List Char, ¬ '!' ∈ a →
      parse_range_string ⟨a ++ '!' :: b⟩ = some (⟨a⟩, ⟨b⟩)) := by
  have hrp := parseRefParam_no_bang h
  refine ⟨?_, ?_, ?_⟩
  · intro tid htid
    have hf : getParam [("file", ParamVal.pfile (.valid wb)), ("range", ParamVal.pstr r)]
        "file" = some (.pfile (.valid wb)) := rfl
    have hr : getParam [("file", ParamVal.pfile (.valid wb)), ("range", ParamVal.pstr r)]
        "range" = some (.pstr r) := rfl
    rcases htid with h1 | h1 <;> subst h1
    · have hcore : sumCore wb (.pstr r) = .error .invalidReference := by
        simp [sumCore, hrp]
      simp [run_tool, dispatch_sum_range hf hr, hcore, mkResponse, RunErr.status,
        RunErr.message]
    · have hcore : avgCore wb (.pstr r) = .error .invalidReference := by
        simp [avgCore, hrp]
      simp [run_tool, dispatch_avg_range hf hr, hcore, mkResponse, RunErr.status,
        RunErr.message]
  · intro tid htid
    have hf : getParam [("file", ParamVal.pfile (.valid wb)), ("cell", ParamVal.pstr r)]
        "file" = some (.pfile (.valid wb)) := rfl
    have hc : getParam [("file", ParamVal.pfile (.valid wb)), ("cell", ParamVal.pstr r)]
        "cell" = some (.pstr r) := rfl
    rcases htid with h1 | h1 <;> subst h1
    · have hcore : getCore wb (.pstr r) = .error .invalidReference := by
        simp [getCore, hrp]
      simp [run_tool, dispatch_get_cell hf hc, hcore, mkResponse, RunErr.status,
        RunErr.message]
    · have hcore : setCore wb (.pstr r) (getParam
          [("file", ParamVal.pfile (.valid wb)), ("cell", ParamVal.pstr r)] "value") =
          .error .invalidReference := by
        simp [setCore, hrp]
      simp [run_tool, dispatch_set_cell hf hc, hcore, mkResponse, RunErr.status,
        RunErr.message]
  · intro a b ha
    rw [parse_range_string]
    show (splitFirst '!' (a ++ '!' :: b)).map _ = _
    rw [splitFirst_first a b ha]
    rfl

/-- Witness for C5 at the reference "A1" (no bang) for `sum_range`, and
the first-bang split on `Sheet!A1!B2`. -/
theorem missing_bang_invalid_reference_witness :
    run_tool ⟨some "sum_range",
        [("file", .pfile (.valid ⟨[("Sheet1", [[.int 2]])]⟩)), ("range", .pstr "A1")]⟩ =
      (⟨500, .error "Invalid range format. Expected 'SheetName!A1:B10'."⟩, true) ∧
    parse_range_string ⟨"Sheet".data ++ '!' :: "A1!B2".data⟩ =
      some (⟨"Sheet".data⟩, ⟨"A1!B2".data⟩) := by
  have h := missing_bang_invalid_reference ⟨[("Sheet1", [[.int 2]])]⟩ "A1" (by decide)
  exact ⟨h.1 "sum_range" (Or.inl rfl), h.2.2 "Sheet".data "A1!B2".data (by decide)⟩

/-! ## Parameter errors and evaluation order -/

/-- **C6, counterexample.** A `sum_range` request with a valid file but
no `range` parameter: the response is 400 (`InvalidParameters`), but the
decode flag is `true` — the file WAS decoded before the missing
parameter was read, refuting "before any file decoding is attempted for
that request". -/
theorem param_error_ordering_cex :
    getParam [("file", ParamVal.pfile (.valid ⟨[("Sheet1", [[PyVal.int 2]])]⟩))] "range"
      = Option.none ∧
    (run_tool ⟨some "sum_range",
        [("file", .pfile (.valid ⟨[("Sheet1", [[.int 2]])]⟩))]⟩).1.status = 400 ∧
    (run_tool ⟨some "sum_range",
        [("file", .pfile (.valid ⟨[("Sheet1", [[.int 2]])]⟩))]⟩).2 = true := by
  decide

theorem parseRefParam_nonstr {rv : ParamVal} (hns : ∀ s, rv ≠ .pstr s)
    (hnf : ∀ f, rv ≠ .pfile f) :
    parseRefParam rv = .error (.typeMismatch "argument of type is not iterable") := by
  cases rv with
  | pstr s => exact absurd rfl (hns s)
  | pfile f => exact absurd rfl (hnf f)
  | pnum q => rfl
  | pbool b => rfl
  | pnull => rfl

theorem load_workbook_nonstr {rv : ParamVal} (hns : ∀ s, rv ≠ .pstr s)
    (hnf : ∀ f, rv ≠ .pfile f) :
    load_workbook_from_b64 rv = .error (.attrError "split") := by
  cases rv with
  | pstr s => exact absurd rfl (hns s)
  | pfile f => exact absurd rfl (hnf f)
  | pnum q => rfl
  | pbool b => rfl
  | pnull => rfl

/-- **C6, amended.** A missing required parameter fails with
`InvalidParameters` (400); no decoding happens when the missing
parameter is `file`, but when a parameter read after the file
(`range`, `cell`, `value`) is missing, the file has already been
decoded.  A wrong-typed parameter read after the file also fails with
`InvalidParameters` (400) via `TypeError` — a non-string `range` or
`cell` (`'!' not in v` on a non-iterable), or a null `value`
(`float(None)`) — again with the file already decoded; a wrong-typed
(non-string) `file` parameter instead reaches the catch-all with
`AttributeError` and fails with 500, not 400.  An unregistered tool id
fails with `ToolNotFound` (404) before any parameter inspection (the
response does not depend on the parameters) and before any
decoding. -/
theorem param_error_ordering :
    (∀ tid ps, tid ≠ "sum_range" → tid ≠ "avg_range" → tid ≠ "get_cell" →
      tid ≠ "set_cell" → tid ≠ "to_csv" →
      run_tool ⟨some tid, ps⟩ =
        (⟨404, .error ("Tool with id '" ++ tid ++ "' not found.")⟩, false)) ∧
    (∀ tid ps,
      tid ∈ (["sum_range", "avg_range", "get_cell", "set_cell", "to_csv"] : List String) →
      getParam ps "file" = Option.none →
      run_tool ⟨some tid, ps⟩ =
        (⟨400, .error "Missing or invalid parameter: 'file'"⟩, false)) ∧
    (∀ tid ps wb, tid = "sum_range" ∨ tid = "avg_range" →
      getParam ps "file" = some (.pfile (.valid wb)) →
      getParam ps "range" = Option.none →
      run_tool ⟨some tid, ps⟩ =
        (⟨400, .error "Missing or invalid parameter: 'range'"⟩, true)) ∧
    (∀ tid ps wb, tid = "get_cell" ∨ tid = "set_cell" →
      getParam ps "file" = some (.pfile (.valid wb)) →
      getParam ps "cell" = Option.none →
      run_tool ⟨some tid, ps⟩ =
        (⟨400, .error "Missing or invalid parameter: 'cell'"⟩, true)) ∧
    (∀ ps wb (r sn addr : String),
      getParam ps "file" = some (.pfile (.valid wb)) →
      getParam ps "cell" = some (.pstr r) →
      parse_range_string r = some (sn, addr) →
      getParam ps "value" = Option.none →
      run_tool ⟨some "set_cell", ps⟩ =
        (⟨400, .error "Missing or invalid parameter: 'value'"⟩, true)) ∧
    (∀ tid ps wb rv, tid = "sum_range" ∨ tid = "avg_range" →
      getParam ps "file" = some (.pfile (.valid wb)) →
      getParam ps "range" = some rv →
      (∀ s, rv ≠ .pstr s) → (∀ f, rv ≠ .pfile f) →
      (run_tool ⟨some tid, ps⟩).1.status = 400 ∧
      (∃ m, (run_tool ⟨some tid, ps⟩).1.body = .error m) ∧
      (run_tool ⟨some tid, ps⟩).2 = true) ∧
    (∀ tid ps wb rv, tid = "get_cell" ∨ tid = "set_cell" →
      getParam ps "file" = some (.pfile (.valid wb)) →
      getParam ps "cell" = some rv →
      (∀ s, rv ≠ .pstr s) → (∀ f, rv ≠ .pfile f) →
      (run_tool ⟨some tid, ps⟩).1.status = 400 ∧
      (∃ m, (run_tool ⟨some tid, ps⟩).1.body = .error m) ∧
      (run_tool ⟨some tid, ps⟩).2 = true) ∧
    (∀ ps wb (r sn addr : String) (g : Grid),
      getParam ps "file" = some (.pfile (.valid wb)) →
      getParam ps "cell" = some (.pstr r) →
      parse_range_string r = some (sn, addr) →
      getParam ps "value" = some .pnull →
      wb.findSheet sn = some g →
      (run_tool ⟨some "set_cell", ps⟩).1.status = 400 ∧
      (∃ m, (run_tool ⟨some "set_cell", ps⟩).1.body = .error m) ∧
      (run_tool ⟨some "set_cell", ps⟩).2 = true) ∧
    (∀ tid ps rv,
      tid ∈ (["sum_range", "avg_range", "get_cell", "set_cell", "to_csv"] : List String) →
      getParam ps "file" = some rv →
      (∀ s, rv ≠ .pstr s) → (∀ f, rv ≠ .pfile f) →
      (run_tool ⟨some tid, ps⟩).1.status = 500 ∧
      (∃ m, (run_tool ⟨some tid, ps⟩).1.body = .error m) ∧
      (run_tool ⟨some tid, ps⟩).2 = true) := by
  refine ⟨?_, ?_, ?_, ?_, ?_, ?_, ?_, ?_, ?_⟩
  · intro tid ps h1 h2 h3 h4 h5
    simp [run_tool, dispatch, h1, h2, h3, h4, h5, mkResponse, RunErr.status, RunErr.message]
  · intro tid ps hmem hf
    simp only [List.mem_cons, List.not_mem_nil, or_false] at hmem
    rcases hmem with h | h | h | h | h <;> subst h <;>
      simp [run_tool, dispatch, hf, mkResponse, RunErr.status, RunErr.message]
  · intro tid ps wb htid hf hr
    rcases htid with h | h <;> subst h <;>
      simp [run_tool, dispatch, hf, hr, load_workbook_from_b64, mkResponse,
        RunErr.status, RunErr.message]
  · intro tid ps wb htid hf hc
    rcases htid with h | h <;> subst h <;>
      simp [run_tool, dispatch, hf, hc, load_workbook_from_b64, mkResponse,
        RunErr.status, RunErr.message]
  · intro ps wb r sn addr hf hc hpr hv
    have hcore : setCore wb (.pstr r) (getParam ps "value") =
        .error (.missingParam "value") := by
      simp [setCore, parseRefParam, hpr, hv]
    simp [run_tool, dispatch_set_cell hf hc, hcore, mkResponse, RunErr.status,
      RunErr.message]
  · intro tid ps wb rv htid hf hr hns hnf
    have hrp := parseRefParam_nonstr hns hnf
    rcases htid with h | h <;> subst h
    · have hresp : run_tool ⟨some "sum_range", ps⟩ =
          (⟨400, .error "Missing or invalid parameter: argument of type is not iterable"⟩,
            true) := by
        have hcore : sumCore wb rv =
            .error (.typeMismatch "argument of type is not iterable") := by
          simp [sumCore, hrp]
        simp [run_tool, dispatch_sum_range hf hr, hcore, mkResponse, RunErr.status,
          RunErr.message]
      exact ⟨by rw [hresp], ⟨_, by rw [hresp]⟩, by rw [hresp]⟩
    · have hresp : run_tool ⟨some "avg_range", ps⟩ =
          (⟨400, .error "Missing or invalid parameter: argument of type is not iterable"⟩,
            true) := by
        have hcore : avgCore wb rv =
            .error (.typeMismatch "argument of type is not iterable") := by
          simp [avgCore, hrp]
        simp [run_tool, dispatch_avg_range hf hr, hcore, mkResponse, RunErr.status,
          RunErr.message]
      exact ⟨by rw [hresp], ⟨_, by rw [hresp]⟩, by rw [hresp]⟩
  · intro tid ps wb rv htid hf hc hns hnf
    have hrp := parseRefParam_nonstr hns hnf
    rcases htid with h | h <;> subst h
    · have hresp : run_tool ⟨some "get_cell", ps⟩ =
          (⟨400, .error "Missing or invalid parameter: argument of type is not iterable"⟩,
            true) := by
        have hcore : getCore wb rv =
            .error (.typeMismatch "argument of type is not iterable") := by
          simp [getCore, hrp]
        simp [run_tool, dispatch_get_cell hf hc, hcore, mkResponse, RunErr.status,
          RunErr.message]
      exact ⟨by rw [hresp], ⟨_, by rw [hresp]⟩, by rw [hresp]⟩
    · have hresp : run_tool ⟨some "set_cell", ps⟩ =
          (⟨400, .error "Missing or invalid parameter: argument of type is not iterable"⟩,
            true) := by
        have hcore : setCore wb rv (getParam ps "value") =
            .error (.typeMismatch "argument of type is not iterable") := by
          simp [setCore, hrp]
        simp [run_tool, dispatch_set_cell hf hc, hcore, mkResponse, RunErr.status,
          RunErr.message]
      exact ⟨by rw [hresp], ⟨_, by rw [hresp]⟩, by rw [hresp]⟩
  · intro ps wb r sn addr g hf hc hpr hv hws
    have hresp : run_tool ⟨some "set_cell", ps⟩ =
        (⟨400, .error
            "Missing or invalid parameter: float() argument must be a string or a real number"⟩,
          true) := by
      have hcore : setCore wb (.pstr r) (getParam ps "value") =
          .error (.typeMismatch "float() argument must be a string or a real number") := by
        simp [setCore, parseRefParam, hpr, hv, hws, coerceValue]
      simp [run_tool, dispatch_set_cell hf hc, hcore, mkResponse, RunErr.status,
        RunErr.message]
    exact ⟨by rw [hresp], ⟨_, by rw [hresp]⟩, by rw [hresp]⟩
  · intro tid ps rv hmem hf hns hnf
    have hld := load_workbook_nonstr hns hnf
    simp only [List.mem_cons, List.not_mem_nil, or_false] at hmem
    rcases hmem with h | h | h | h | h <;> subst h <;>
      (refine ⟨?_, ⟨"'split'", ?_⟩, ?_⟩ <;>
        simp [run_tool, dispatch, hf, hld, mkResponse, RunErr.status, RunErr.message])

/-- Witness for the amended C6, instantiating every conjunct at a
concrete request. -/
theorem param_error_ordering_witness :
    (run_tool ⟨some "does_not_exist", [("file", .pfile (.valid ⟨[("S", [[]])]⟩))]⟩ =
      (⟨404, .error "Tool with id 'does_not_exist' not found."⟩, false)) ∧
    (run_tool ⟨some "to_csv", ([] : Params)⟩ =
      (⟨400, .error "Missing or invalid parameter: 'file'"⟩, false)) ∧
    (run_tool ⟨some "sum_range", [("file", .pfile (.valid ⟨[("S", [[]])]⟩))]⟩ =
      (⟨400, .error "Missing or invalid parameter: 'range'"⟩, true)) ∧
    (run_tool ⟨some "get_cell", [("file", .pfile (.valid ⟨[("S", [[]])]⟩))]⟩ =
      (⟨400, .error "Missing or invalid parameter: 'cell'"⟩, true)) ∧
    (run_tool ⟨some "set_cell", [("file", .pfile (.valid ⟨[("S", [[]])]⟩)),
        ("cell", .pstr "S!A1")]⟩ =
      (⟨400, .error "Missing or invalid parameter: 'value'"⟩, true)) ∧
    ((run_tool ⟨some "sum_range", [("file", .pfile (.valid ⟨[("S", [[]])]⟩)),
        ("range", .pnull)]⟩).1.status = 400 ∧
      (∃ m, (run_tool ⟨some "sum_range", [("file", .pfile (.valid ⟨[("S", [[]])]⟩)),
        ("range", .pnull)]⟩).1.body = .error m) ∧
      (run_tool ⟨some "sum_range", [("file", .pfile (.valid ⟨[("S", [[]])]⟩)),
        ("range", .pnull)]⟩).2 = true) ∧
    ((run_tool ⟨some "get_cell", [("file", .pfile (.valid ⟨[("S", [[]])]⟩)),
        ("cell", .pnum 3)]⟩).1.status = 400 ∧
      (∃ m, (run_tool ⟨some "get_cell", [("file", .pfile (.valid ⟨[("S", [[]])]⟩)),
        ("cell", .pnum 3)]⟩).1.body = .error m) ∧
      (run_tool ⟨some "get_cell", [("file", .pfile (.valid ⟨[("S", [[]])]⟩)),
        ("cell", .pnum 3)]⟩).2 = true) ∧
    ((run_tool ⟨some "set_cell", [("file", .pfile (.valid ⟨[("S", [[]])]⟩)),
        ("cell", .pstr "S!A1"), ("value", .pnull)]⟩).1.status = 400 ∧
      (∃ m, (run_tool ⟨some "set_cell", [("file", .pfile (.valid ⟨[("S", [[]])]⟩)),
        ("cell", .pstr "S!A1"), ("value", .pnull)]⟩).1.body = .error m) ∧
      (run_tool ⟨some "set_cell", [("file", .pfile (.valid ⟨[("S", [[]])]⟩)),
        ("cell", .pstr "S!A1"), ("value", .pnull)]⟩).2 = true) ∧
    ((run_tool ⟨some "to_csv", [("file", .pbool true)]⟩).1.status = 500 ∧
      (∃ m, (run_tool ⟨some "to_csv", [("file", .pbool true)]⟩).1.body = .error m) ∧
      (run_tool ⟨some "to_csv", [("file", .pbool true)]⟩).2 = true) := by
  have h := param_error_ordering
  refine ⟨h.1 "does_not_exist" _ (by decide) (by decide) (by decide) (by decide) (by decide),
    h.2.1 "to_csv" [] (by decide) (by decide),
    h.2.2.1 "sum_range" _ ⟨[("S", [[]])]⟩ (Or.inl rfl) (by decide) (by decide),
    h.2.2.2.1 "get_cell" _ ⟨[("S", [[]])]⟩ (Or.inl rfl) (by decide) (by decide),
    h.2.2.2.2.1 _ ⟨[("S", [[]])]⟩ "S!A1" "S" "A1" (by decide) (by decide) (by decide)
      (by decide),
    h.2.2.2.2.2.1 "sum_range" _ ⟨[("S", [[]])]⟩ .pnull (Or.inl rfl) (by decide) (by decide)
      (fun s hx => ParamVal.noConfusion hx) (fun f hx => ParamVal.noConfusion hx),
    h.2.2.2.2.2.2.1 "get_cell" _ ⟨[("S", [[]])]⟩ (.pnum 3) (Or.inl rfl) (by decide)
      (by decide) (fun s hx => ParamVal.noConfusion hx)
      (fun f hx => ParamVal.noConfusion hx),
    h.2.2.2.2.2.2.2.1 _ ⟨[("S", [[]])]⟩ "S!A1" "S" "A1" [[]] (by decide) (by decide)
      (by decide) (by decide) (by decide),
    h.2.2.2.2.2.2.2.2 "to_csv" _ (.pbool true) (by decide) (by decide)
      (fun s hx => ParamVal.noConfusion hx) (fun f hx => ParamVal.noConfusion hx)⟩

/-! ## Response shape -/

/-- **C7.** Every request produces exactly one of a 200 response with a
result body or a non-2xx (400/404/500) response with an error body —
never both, never neither: the dispatcher is a total function whose
every failure is converted into a structured error response. -/
theorem response_shape_total (req : Request) :
    ((run_tool req).1.status = 200 ∧
      (∃ rv, (run_tool req).1.body = .ok rv) ∧
      (∀ m, (run_tool req).1.body ≠ .error m)) ∨
    (((run_tool req).1.status = 400 ∨ (run_tool req).1.status = 404 ∨
        (run_tool req).1.status = 500) ∧
      (∃ m, (run_tool req).1.body = .error m) ∧
      (∀ rv, (run_tool req).1.body ≠ .ok rv)) := by
  obtain ⟨tid, ps⟩ := req
  cases tid with
  | none =>
    right
    refine ⟨?_, ⟨_, rfl⟩, fun rv => by simp [run_tool, mkResponse]⟩
    simp [run_tool, mkResponse, RunErr.status]
  | some tid =>
    have hrt : run_tool ⟨some tid, ps⟩ =
        (mkResponse (dispatch tid ps).1, (dispatch tid ps).2) := rfl
    cases hd : (dispatch tid ps).1 with
    | ok rv =>
      left
      rw [hrt, hd]
      exact ⟨rfl, ⟨rv, rfl⟩, fun m => by simp [mkResponse]⟩
    | error e =>
      right
      rw [hrt, hd]
      refine ⟨?_, ⟨e.message, rfl⟩, fun rv => by simp [mkResponse]⟩
      cases e <;> simp [mkResponse, RunErr.status]

/-! ## Booleans are numeric -/

/-- **C8.** Boolean cells pass the dispatcher's numeric test
(`isinstance(v, (int, float))` accepts `bool`): `sum_range` adds
`True` as 1 and `False` as 0, and `avg_range` counts boolean cells in
both the total and the divisor; the loop body `cellStep` is shared by
both tools.  On a sheet `[True, False, 3]`, sum returns 4 and average
returns 4/3. -/
theorem bool_cells_numeric :
    (∀ b : Bool, isNumeric (.bool b) = true) ∧
    (∀ (acc : PyNum × Nat) (b : Bool),
      cellStep acc (.bool b) = (numAdd acc.1 (.int (if b then 1 else 0)), acc.2 + 1)) ∧
    numRat? (.bool true) = some 1 ∧ numRat? (.bool false) = some 0 ∧
    rangeNums [[.bool true], [.bool false], [.int 3]] = [1, 0, 3] ∧
    rangeCount [[.bool true], [.bool false], [.int 3]] = 3 ∧
    foldCells [[.bool true], [.bool false], [.int 3]] = (.int 4, 3) ∧
    run_tool ⟨some "sum_range",
        [("file", .pfile (.valid ⟨[("S", [[.bool true], [.bool false], [.int 3]])]⟩)),
         ("range", .pstr "S!A1:A3")]⟩ =
      (⟨200, .ok (.value (.int 4))⟩, true) ∧
    run_tool ⟨some "avg_range",
        [("file", .pfile (.valid ⟨[("S", [[.bool true], [.bool false], [.int 3]])]⟩)),
         ("range", .pstr "S!A1:A3")]⟩ =
      (⟨200, .ok (.value (.float (.finite ((4 : ℚ) / 3))))⟩, true) := by
  refine ⟨fun b => rfl, fun acc b => by simp [cellStep, isNumeric, valToNum],
    by decide, by decide, by decide, by decide, by decide, by decide, ?_⟩
  have hsp : parse_range_string "S!A1:A3" = some ("S", "A1:A3") := by decide
  have hws : (Workbook.findSheet ⟨[("S", [[.bool true], [.bool false], [.int 3]])]⟩ "S") =
      some [[.bool true], [.bool false], [.int 3]] := by decide
  have hres : resolveCells [[.bool true], [.bool false], [.int 3]]
      (classifyAddr "A1:A3".data) = some [[.bool true], [.bool false], [.int 3]] := by
    decide
  have hcore := avgCore_resolved hsp hws hres
  have hfc : foldCells [[PyVal.bool true], [PyVal.bool false], [PyVal.int 3]] =
      (.int 4, 3) := by decide
  rw [hfc] at hcore
  have hdiv : pfDivNat (PyNum.int 4).toPF 3 = .finite ((4 : ℚ) / 3) := by
    simp [pfDivNat, PyNum.toPF]
  simp only [hdiv] at hcore
  have hf : getParam [("file",
      ParamVal.pfile (.valid ⟨[("S", [[.bool true], [.bool false], [.int 3]])]⟩)),
      ("range", ParamVal.pstr "S!A1:A3")] "file" =
      some (.pfile (.valid ⟨[("S", [[.bool true], [.bool false], [.int 3]])]⟩)) := rfl
  have hr : getParam [("file",
      ParamVal.pfile (.valid ⟨[("S", [[.bool true], [.bool false], [.int 3]])]⟩)),
      ("range", ParamVal.pstr "S!A1:A3")] "range" = some (.pstr "S!A1:A3") := rfl
  simp [run_tool, dispatch_avg_range hf hr, hcore, mkResponse]

/-! ## Determinism and request independence -/

/-- **C10, counterexample.** Two identical `set_cell` requests handled
at different times receive the same status but different JSON bodies:
the returned data URL embeds the xlsx zip container's save-time entry
stamps, which differ between the two saves even though the workbook
content written is identical.  This refutes "the two responses have
identical status and identical JSON bodies" as stated. -/
theorem identical_requests_cex :
    (run_tool_at 0 ⟨some "set_cell",
        [("file", .pfile (.valid ⟨[("S", [[.int 1]])]⟩)),
         ("cell", .pstr "S!A1"), ("value", .pstr "x")]⟩).1 =
      (run_tool_at 1 ⟨some "set_cell",
        [("file", .pfile (.valid ⟨[("S", [[.int 1]])]⟩)),
         ("cell", .pstr "S!A1"), ("value", .pstr "x")]⟩).1 ∧
    run_tool_at 0 ⟨some "set_cell",
        [("file", .pfile (.valid ⟨[("S", [[.int 1]])]⟩)),
         ("cell", .pstr "S!A1"), ("value", .pstr "x")]⟩ ≠
      run_tool_at 1 ⟨some "set_cell",
        [("file", .pfile (.valid ⟨[("S", [[.int 1]])]⟩)),
         ("cell", .pstr "S!A1"), ("value", .pstr "x")]⟩ := by
  decide

/-- **C10, amended.** Request handling is stateless and deterministic
up to the save clock: a response does not depend on the surrounding
requests of a batch, identical requests handled at the same time
receive identical responses, and the status never depends on the time.
Every response body without an xlsx payload (sum, average, get, CSV
conversion and all errors) is identical across identical requests
regardless of time; a `set_cell` response body consists of the same
written workbook content with the save-time stamp of its own request,
so only the embedded timestamps differ between identical `set_cell`
requests.  No state written during one request is observable in any
other request. -/
theorem requests_independent :
    (∀ (pre post : List (Nat × Request)) (p : Nat × Request),
      serveAt (pre ++ p :: post) =
        serveAt pre ++ run_tool_at p.1 p.2 :: serveAt post) ∧
    (∀ (t : Nat) (r : Request),
      serveAt [(t, r), (t, r)] = [run_tool_at t r, run_tool_at t r]) ∧
    (∀ (t t' : Nat) (r : Request), (run_tool_at t r).1 = (run_tool_at t' r).1) ∧
    (∀ (t t' : Nat) (r : Request),
      isXlsxBody (run_tool r).1.body = false →
      run_tool_at t r = run_tool_at t' r) ∧
    (∀ (t t' : Nat) (r : Request) (wb' : Workbook),
      (run_tool r).1.body = .ok (.fileOut (.xlsxFile wb')) →
      (run_tool_at t r).2 = .wireFile (.xlsxWire ⟨wb', t⟩) ∧
      (run_tool_at t' r).2 = .wireFile (.xlsxWire ⟨wb', t'⟩)) := by
  refine ⟨?_, ?_, ?_, ?_, ?_⟩
  · intro pre post p
    simp [serveAt]
  · intro t r
    simp [serveAt]
  · intro t t' r
    rfl
  · intro t t' r h
    cases hb : (run_tool r).1.body with
    | error m => simp [run_tool_at, hb, wireBody]
    | ok rv =>
      cases rv with
      | value v => simp [run_tool_at, hb, wireBody]
      | fileOut f =>
        cases f with
        | xlsxFile wb =>
          rw [hb] at h
          simp [isXlsxBody] at h
        | csvFile s => simp [run_tool_at, hb, wireBody]
  · intro t t' r wb1 hb
    constructor <;> simp [run_tool_at, hb, wireBody]

/-- Witness for the amended C10: a `sum_range` request is
time-independent, and a `set_cell` request returns the same written
content with its own save stamp. -/
theorem requests_independent_witness :
    run_tool_at 3 ⟨some "sum_range",
        [("file", .pfile (.valid ⟨[("S", [[.int 1]])]⟩)),
         ("range", .pstr "S!A1:A1")]⟩ =
      run_tool_at 5 ⟨some "sum_range",
        [("file", .pfile (.valid ⟨[("S", [[.int 1]])]⟩)),
         ("range", .pstr "S!A1:A1")]⟩ ∧
    (run_tool_at 3 ⟨some "set_cell",
        [("file", .pfile (.valid ⟨[("S", [[.int 1]])]⟩)),
         ("cell", .pstr "S!A1"), ("value", .pstr "x")]⟩).2 =
      .wireFile (.xlsxWire ⟨⟨[("S", [[.str "x"]])]⟩, 3⟩) ∧
    (run_tool_at 5 ⟨some "set_cell",
        [("file", .pfile (.valid ⟨[("S", [[.int 1]])]⟩)),
         ("cell", .pstr "S!A1"), ("value", .pstr "x")]⟩).2 =
      .wireFile (.xlsxWire ⟨⟨[("S", [[.str "x"]])]⟩, 5⟩) := by
  have h := requests_independent
  refine ⟨h.2.2.2.1 3 5 _ (by decide), ?_, ?_⟩
  · exact (h.2.2.2.2 3 5 _ ⟨[("S", [[.str "x"]])]⟩ (by decide)).1
  · exact (h.2.2.2.2 3 5 _ ⟨[("S", [[.str "x"]])]⟩ (by decide)).2

end App
